import Mathlib

/-!
Shallow embedding of the Ebb-Flood irrigation controller
(mycodo/functions/custom_functions/ebb_flood_irrigation.py).

The controller is a tick-driven finite state machine over the phases
idle / starting / filling / full / draining / drained / error / shutdown.
Each tick handler is translated as a pure function from the controller's
mutable attributes (structure St), the configuration (structure Config),
the current wall-clock time (a rational) and the environment readings of
this tick (structure Env) to a new state together with the ordered list
of external side effects the handler emits (List Eff).

Times and measurement values are modelled as rationals.  The transitions
library's triggers are translated directly: a trigger sets the destination
phase and then runs the corresponding after-callback synchronously, so a
nested trigger inside a handler (such as self.error() inside a sensor-read
helper) is function composition here, exactly as in the source.
-/

namespace EbbFlood

/-- The states declared in initialize(): idle, starting, filling, full,
draining, drained, error, shutdown. -/
inductive Phase
  | idle
  | starting
  | filling
  | full
  | draining
  | drained
  | error
  | shutdown
deriving DecidableEq

/-- The three outputs the controller drives. -/
inductive Dev
  | waterpump
  | valve1
  | valve2
deriving DecidableEq

/-- Result of one raw boolean-like sensor sample as seen by
read_flood_waterlevel / read_basin_waterlevel: missing means
get_last_measurement returned a falsy value (no sample or stale);
off / on mean the value was in [0, 0.0, False, 'off'] resp.
[1, 1.0, True, 'on']; invalid means any other value. -/
inductive Raw
  | missing
  | off
  | on
  | invalid
deriving DecidableEq

/-- Result of control.output_state for the waterpump in on_filling:
missing means a falsy return, on means a value in [1, 1.0, True, 'on'],
other means any other truthy value. -/
inductive PumpRead
  | missing
  | on
  | other
deriving DecidableEq

/-- The collaborator-supplied readings available during one tick. -/
structure Env where
  floodRaw : Raw
  basinRaw : Raw
  pumpState : PumpRead
deriving DecidableEq

/-- The custom options and resolved channels, fixed for a run.
Option Unit mirrors a Python attribute that is either None or set;
max_flooding_time and flooding_overshoot are Option since on_starting
explicitly checks them against None. -/
structure Config where
  period : ℚ
  measurement_flood_waterlevel_device_id : Option Unit
  measurement_flood_waterlevel_measurement_id : Option Unit
  measurement_min_waterlevel_device_id : Option Unit
  measurement_min_waterlevel_measurement_id : Option Unit
  output_waterpump_channel : Option Unit
  output_valve1_channel : Option Unit
  output_valve2_channel : Option Unit
  output_max_time : ℚ
  max_flooding_time : Option ℚ
  flooding_overshoot : Option ℚ
  max_draining_time : ℚ
  valve_cleaning_time : ℚ
  flood_device_resolvable : Bool
  min_device_resolvable : Bool
deriving DecidableEq

/-- External side effects a tick can emit, in emission order. -/
inductive Eff
  | forceMeasure
  | outputOn (d : Dev) (amount : ℚ)
  | outputOff (d : Dev)
  | writeStats (floodingCount errorCount floodingTime floodingVolume drainingTime lowWaterTime : ℚ)
  | deactivate
  | raiseInvalidErrorState
  | raiseTypeErr
deriving DecidableEq

/-- The mutable attributes of CustomModule that the tick path reads or
writes.  flooded_high_time is initialized to 0 and only ever assigned
time.time() or 0, so the source's (is None) disjunct is vacuous and the
field is a plain rational here. -/
structure St where
  phase : Phase
  timer_loop : ℚ
  starting_tries : Option ℕ
  fill_start_timestamp : ℚ
  flooding_time : ℚ
  overshoot_time : ℚ
  flooded_high_time : ℚ
  flooding_volume : ℚ
  draining_time : ℚ
  draining_start_timestamp : ℚ
  low_water_time : ℚ
  cleaning_valves : ℕ
  flooding_count : ℚ
  error_count : ℚ
  last_force_measurement_time : Option ℚ
deriving DecidableEq

/-- write_statistics: one batched write of the six measurement channels. -/
def write_statistics (s : St) : Eff :=
  Eff.writeStats s.flooding_count s.error_count s.flooding_time
    s.flooding_volume s.draining_time s.low_water_time

/-- on_error: increments the error counter, writes statistics, then
requests deactivation (set_controller_off). -/
def on_error (s : St) : St × List Eff :=
  let s := { s with error_count := s.error_count + 1 }
  (s, [write_statistics s, Eff.deactivate])

/-- Firing the wildcard error trigger: destination phase is set to error,
then the after-callback on_error runs. -/
def fireError (s : St) : St × List Eff :=
  on_error { s with phase := Phase.error }

/-- on_drained: writes statistics, then requests deactivation. -/
def on_drained (s : St) : St × List Eff :=
  (s, [write_statistics s, Eff.deactivate])

/-- Firing the drained trigger from draining: destination phase drained,
then the after-callback on_drained runs. -/
def fireDrained (s : St) : St × List Eff :=
  on_drained { s with phase := Phase.drained }

/-- all_outputs_off: pump off, then valve 1 off if configured, then
valve 2 off if configured. -/
def all_outputs_off (cfg : Config) : List Eff :=
  [Eff.outputOff Dev.waterpump]
    ++ (if cfg.output_valve1_channel.isSome then [Eff.outputOff Dev.valve1] else [])
    ++ (if cfg.output_valve2_channel.isSome then [Eff.outputOff Dev.valve2] else [])

/-- on_full: latch low_water_time if still 0, increment the flood count,
turn all outputs off, record the drain start, then fire drain (full to
draining, no callback). -/
def on_full (cfg : Config) (s : St) (now : ℚ) : St × List Eff :=
  let s := if s.low_water_time = 0
    then { s with low_water_time := now - s.fill_start_timestamp } else s
  let s := { s with flooding_count := s.flooding_count + 1 }
  let s := { s with draining_start_timestamp := now, phase := Phase.draining }
  (s, all_outputs_off cfg)

/-- Firing the full trigger from filling: destination phase full, then
the after-callback on_full runs (which itself fires drain). -/
def fireFull (cfg : Config) (s : St) (now : ℚ) : St × List Eff :=
  on_full cfg { s with phase := Phase.full } now

/-- check_force_measurement for the flood device id (both sensor-read
helpers pass measurement_flood_waterlevel_device_id, so one rate-limiter
slot suffices): suppress the forced refresh if one was requested less
than 1 second ago. -/
def check_force_measurement (s : St) (now : ℚ) : St × List Eff :=
  match s.last_force_measurement_time with
  | some t =>
      if now - t < 1 then (s, [])
      else ({ s with last_force_measurement_time := some now }, [Eff.forceMeasure])
  | none => ({ s with last_force_measurement_time := some now }, [Eff.forceMeasure])

/-- The rate-limiter slot value after check_force_measurement:
unchanged if a forced refresh happened less than 1 second ago,
otherwise updated to the current time (characterization helper for
proofs). -/
def forceSlot (s : St) (now : ℚ) : Option ℚ :=
  match s.last_force_measurement_time with
  | some t => if now - t < 1 then some t else some now
  | none => some now

/-- Result of a sensor-read helper: the returned value (none, some 0 or
some 1), the state after the call, and the effects emitted. -/
structure ReadRes where
  val : Option ℕ
  st : St
  effs : List Eff

/-- read_flood_waterlevel: force a refresh (rate limited), then map the
raw sample; a missing or stale sample returns None; an invalid value
fires the error trigger and returns None. -/
def read_flood_waterlevel (s : St) (now : ℚ) (env : Env) : ReadRes :=
  let fr := check_force_measurement s now
  match env.floodRaw with
  | Raw.missing => ⟨none, fr.1, fr.2⟩
  | Raw.off => ⟨some 0, fr.1, fr.2⟩
  | Raw.on => ⟨some 1, fr.1, fr.2⟩
  | Raw.invalid =>
      let e := fireError fr.1
      ⟨none, e.1, fr.2 ++ e.2⟩

/-- read_basin_waterlevel: identical shape, reading the min-level sample
(the forced refresh is still keyed on the flood device id, as in the
source). -/
def read_basin_waterlevel (s : St) (now : ℚ) (env : Env) : ReadRes :=
  let fr := check_force_measurement s now
  match env.basinRaw with
  | Raw.missing => ⟨none, fr.1, fr.2⟩
  | Raw.off => ⟨some 0, fr.1, fr.2⟩
  | Raw.on => ⟨some 1, fr.1, fr.2⟩
  | Raw.invalid =>
      let e := fireError fr.1
      ⟨none, e.1, fr.2 ++ e.2⟩

/-- The success tail of on_starting: turn on the pump and the configured
valves (each with the output_max_time safety amount), reset the per-cycle
counters, and fire the filling trigger (starting to filling, no
callback). -/
def proceed_to_filling (cfg : Config) (s : St) (now : ℚ) : St × List Eff :=
  let effs := [Eff.outputOn Dev.waterpump cfg.output_max_time]
    ++ (if cfg.output_valve1_channel.isSome then [Eff.outputOn Dev.valve1 cfg.output_max_time] else [])
    ++ (if cfg.output_valve2_channel.isSome then [Eff.outputOn Dev.valve2 cfg.output_max_time] else [])
  ({ s with fill_start_timestamp := now, flooding_time := 0, overshoot_time := 0,
            flooded_high_time := 0, cleaning_valves := 1, phase := Phase.filling }, effs)

/-- The increment step of the retry counter:
0 if self.starting_tries is None else self.starting_tries + 1. -/
def next_tries (s : St) : ℕ :=
  match s.starting_tries with
  | none => 0
  | some n => n + 1

/-- on_starting, translated check by check: reset flooding_time and
low_water_time; increment starting_tries (None becomes 0); give up past
3 tries; error on missing timings, missing flood measurement ids,
missing pump channel, or unresolvable flood device; retry on a missing,
stale, invalid or nonzero flood reading; if a min measurement is
configured, error on unresolvable device, retry on a missing or zero
basin reading; otherwise proceed to filling. -/
def on_starting (cfg : Config) (s : St) (now : ℚ) (env : Env) : St × List Eff :=
  let tries := next_tries s
  let s := { s with flooding_time := 0, low_water_time := 0 }
  let s := { s with starting_tries := some tries }
  if 3 < tries then fireError s
  else if cfg.max_flooding_time = none ∨ cfg.flooding_overshoot = none then fireError s
  else if cfg.measurement_flood_waterlevel_device_id = none
          ∨ cfg.measurement_flood_waterlevel_measurement_id = none then fireError s
  else if cfg.output_waterpump_channel = none then fireError s
  else if cfg.flood_device_resolvable = false then fireError s
  else
    let r := read_flood_waterlevel s now env
    if r.val = none ∨ r.val = some 1 then (r.st, r.effs)
    else if cfg.measurement_min_waterlevel_measurement_id ≠ none then
      if cfg.min_device_resolvable = false then
        let e := fireError r.st
        (e.1, r.effs ++ e.2)
      else
        let rb := read_basin_waterlevel r.st now env
        if rb.val = none then (rb.st, r.effs ++ rb.effs)
        else if rb.val = some 0 then (rb.st, r.effs ++ rb.effs)
        else
          let p := proceed_to_filling cfg rb.st now
          (p.1, r.effs ++ rb.effs ++ p.2)
    else
      let p := proceed_to_filling cfg r.st now
      (p.1, r.effs ++ p.2)

/-- The valve-cleaning block of on_filling: while the cleaning counter
is at least 1 and the elapsed flooding time is inside the cleaning
window, pre-increment the counter and drive one valve according to the
counter mod 4 (0: valve 1 on, 1: valve 1 off, 2: valve 2 on, 3: valve 2
off); on the first tick past the window, zero the counter and turn both
configured valves on. -/
def filling_cleaning (cfg : Config) (s : St) : St × List Eff :=
  if 1 ≤ s.cleaning_valves then
    if s.flooding_time < cfg.valve_cleaning_time then
      let cv := s.cleaning_valves + 1
      let e :=
        if cv % 4 = 0 then
          if cfg.output_valve1_channel.isSome then [Eff.outputOn Dev.valve1 cfg.output_max_time] else []
        else if cv % 4 = 1 then
          if cfg.output_valve1_channel.isSome then [Eff.outputOff Dev.valve1] else []
        else if cv % 4 = 2 then
          if cfg.output_valve2_channel.isSome then [Eff.outputOn Dev.valve2 cfg.output_max_time] else []
        else
          if cfg.output_valve2_channel.isSome then [Eff.outputOff Dev.valve2] else []
      ({ s with cleaning_valves := cv }, e)
    else
      ({ s with cleaning_valves := 0 },
        (if cfg.output_valve1_channel.isSome then [Eff.outputOn Dev.valve1 cfg.output_max_time] else [])
          ++ (if cfg.output_valve2_channel.isSome then [Eff.outputOn Dev.valve2 cfg.output_max_time] else []))
  else (s, [])

/-- The basin-latch block of on_filling: when a min measurement is
configured and low_water_time is still 0, read the basin level and
latch low_water_time on a 0 reading (an invalid reading fires the error
trigger inside the read helper, and execution still continues). -/
def filling_basin (cfg : Config) (s : St) (now : ℚ) (env : Env) : St × List Eff :=
  if cfg.measurement_min_waterlevel_measurement_id ≠ none ∧ s.low_water_time = 0 then
    let rb := read_basin_waterlevel s now env
    (if rb.val = some 0 then { rb.st with low_water_time := now - rb.st.fill_start_timestamp }
     else rb.st, rb.effs)
  else (s, [])

/-- The flood-level block of on_filling: read the flood level; a None
result fires error again (the source has no return between the
invalid-read error and this one); a 0 keeps filling; a 1 latches
flooded_high_time if still 0 and enters full only once the overshoot
dwell has elapsed.  Comparing against a missing flooding_overshoot
raises a TypeError in Python, modelled by the raiseTypeErr effect. -/
def filling_level (cfg : Config) (s : St) (now : ℚ) (env : Env) : St × List Eff :=
  let r := read_flood_waterlevel s now env
  if r.val = none then
    let e := fireError r.st
    (e.1, r.effs ++ e.2)
  else if r.val = some 0 then (r.st, r.effs)
  else
    let s := r.st
    let s := if s.flooded_high_time = 0 then { s with flooded_high_time := now } else s
    let s := { s with overshoot_time := now - s.flooded_high_time }
    match cfg.flooding_overshoot with
    | none => (s, r.effs ++ [Eff.raiseTypeErr])
    | some ov =>
      if s.overshoot_time < ov then (s, r.effs)
      else
        let f := fireFull cfg s now
        (f.1, r.effs ++ f.2)

/-- on_filling, translated check by check: update the elapsed flooding
time; error past max_flooding_time (a missing option raises a
TypeError); error unless the pump reads on; then run the cleaning,
basin-latch and flood-level blocks in order, concatenating their
effects. -/
def on_filling (cfg : Config) (s : St) (now : ℚ) (env : Env) : St × List Eff :=
  let s := { s with flooding_time := now - s.fill_start_timestamp }
  match cfg.max_flooding_time with
  | none => (s, [Eff.raiseTypeErr])
  | some mft =>
    if mft < s.flooding_time then fireError s
    else match env.pumpState with
    | PumpRead.missing => fireError s
    | PumpRead.other => fireError s
    | PumpRead.on =>
      let c1 := filling_cleaning cfg s
      let c2 := filling_basin cfg c1.1 now env
      let c3 := filling_level cfg c2.1 now env
      (c3.1, c1.2 ++ c2.2 ++ c3.2)

/-- on_draining: error past max_draining_time; an invalid or missing
flood reading fires error (twice for invalid, once in the helper and
once here); a 0 reading fires drained; a 1 reading keeps draining. -/
def on_draining (cfg : Config) (s : St) (now : ℚ) (env : Env) : St × List Eff :=
  let s := { s with draining_time := now - s.draining_start_timestamp }
  if cfg.max_draining_time < s.draining_time then fireError s
  else
    let r := read_flood_waterlevel s now env
    if r.val = none then
      let e := fireError r.st
      (e.1, r.effs ++ e.2)
    else if r.val = some 0 then
      let d := fireDrained r.st
      (d.1, r.effs ++ d.2)
    else (r.st, r.effs)

/-- Closed form of the catch-up while loop in loop():
while timer_loop < now: timer_loop += period.  For a positive period the
loop adds the least number of whole periods that lifts the timer to at
least now; a nonpositive period would never terminate in the source, so
all timer theorems assume 0 < period. -/
def advanceTimer (timer period now : ℚ) : ℚ :=
  if timer < now then timer + period * ((⌈(now - timer) / period⌉ : ℤ) : ℚ) else timer

/-- loop(): return immediately while the next tick is in the future;
otherwise catch the timer up and dispatch on the current phase.  idle
fires start (idle to starting, no callback); starting, filling and
draining fire their self-transition whose after-callback is the phase
handler; error requests deactivation and then raises; full, drained and
shutdown fall through the match with no dispatch. -/
def loop (cfg : Config) (s : St) (now : ℚ) (env : Env) : St × List Eff :=
  if now < s.timer_loop then (s, [])
  else
    let s := { s with timer_loop := advanceTimer s.timer_loop cfg.period now }
    match s.phase with
    | Phase.idle => ({ s with phase := Phase.starting }, [])
    | Phase.starting => on_starting cfg s now env
    | Phase.filling => on_filling cfg s now env
    | Phase.draining => on_draining cfg s now env
    | Phase.error => (s, [Eff.deactivate, Eff.raiseInvalidErrorState])
    | _ => (s, [])

/-- Running the tick handler over a whole trace of (time, readings)
pairs, keeping the final state. -/
def runSt (cfg : Config) : St → List (ℚ × Env) → St
  | s, [] => s
  | s, (now, env) :: tr => runSt cfg (loop cfg s now env).1 tr

/-- The state right after activation: phase idle, retry counter unset,
counters seeded from the persisted statistics (flooding count fc, error
count ec), timer primed with the construction time t0. -/
def initSt (t0 fc ec : ℚ) : St where
  phase := Phase.idle
  timer_loop := t0
  starting_tries := none
  fill_start_timestamp := 0
  flooding_time := 0
  overshoot_time := 0
  flooded_high_time := 0
  flooding_volume := 0
  draining_time := 0
  draining_start_timestamp := 0
  low_water_time := 0
  cleaning_valves := 0
  flooding_count := fc
  error_count := ec
  last_force_measurement_time := none

/-- add_measurements_influxdb as seen through LAST-value reads: each
written (channel, value) pair becomes the latest value of that channel,
all other channels keep their previous latest value. -/
def add_measurements_influxdb (w : List (ℕ × ℚ)) (store : ℕ → ℚ) : ℕ → ℚ :=
  w.foldl (fun st p => fun ch => if ch = p.1 then p.2 else st ch) store

/-- The batch written by button_reset_errors: channels 0 (flooding
count) and 1 (error count), both set to value 0. -/
def button_reset_errors_write : List (ℕ × ℚ) := [(0, 0), (1, 0)]

/-- button_reset_errors: writes the two-channel zero batch through the
measurement store. -/
def button_reset_errors (store : ℕ → ℚ) : ℕ → ℚ :=
  add_measurements_influxdb button_reset_errors_write store

/-- Recognizer for the statistics-batch write effect. -/
def isWriteStats : Eff → Bool
  | Eff.writeStats _ _ _ _ _ _ => true
  | _ => false

/-- Number of statistics batches written during one tick. -/
def countWrites (l : List Eff) : ℕ := (l.filter isWriteStats).length

/-- Recognizer for the deactivation request effect. -/
def isDeactivate : Eff → Bool
  | Eff.deactivate => true
  | _ => false

/-- Every statistics write in the list is followed, strictly later in
the list, by a deactivation request. -/
def writesBeforeDeact : List Eff → Bool
  | [] => true
  | e :: rest => ((!isWriteStats e) || rest.any isDeactivate) && writesBeforeDeact rest

/-- Recognizer for valve commands (on or off, either valve). -/
def isValveEff : Eff → Bool
  | Eff.outputOn Dev.valve1 _ => true
  | Eff.outputOn Dev.valve2 _ => true
  | Eff.outputOff Dev.valve1 => true
  | Eff.outputOff Dev.valve2 => true
  | _ => false

/-- The subsequence of valve commands emitted during one tick. -/
def valveEffs (l : List Eff) : List Eff := l.filter isValveEff

/-- Recognizer for the two effects that model an exception escaping the
tick call. -/
def isRaise : Eff → Bool
  | Eff.raiseInvalidErrorState => true
  | Eff.raiseTypeErr => true
  | _ => false

/-- No effect in the list models an exception escaping the tick call. -/
def raiseFree (l : List Eff) : Bool := l.all (fun e => !isRaise e)

/-- The retry counter is at most b (trivially true while it is still
unset). -/
def triesBounded (s : St) (b : ℕ) : Prop :=
  ∀ n, s.starting_tries = some n → n ≤ b

/-- Inductive invariant for the retry counter: it never exceeds 4, and
while the controller is still in idle or starting it never exceeds 3
between ticks. -/
def triesInv (s : St) : Prop :=
  triesBounded s 4 ∧ ((s.phase = Phase.idle ∨ s.phase = Phase.starting) → triesBounded s 3)

/-- Statistics bookkeeping of a code fragment that can enter error but
not drained: the number of statistics batches it writes equals the
number of error-entries it performs (observable as the error-counter
increase), every write is followed by a deactivation request, and the
resulting phase is not drained. -/
def errBook (s t : St) (l : List Eff) : Prop :=
  (countWrites l : ℚ) = t.error_count - s.error_count
  ∧ writesBeforeDeact l = true
  ∧ t.phase ≠ Phase.drained

/-- A fully populated sample configuration (period 1 s, both valves and
the basin sensor configured, default timings). -/
def sampleCfg : Config where
  period := 1
  measurement_flood_waterlevel_device_id := some ()
  measurement_flood_waterlevel_measurement_id := some ()
  measurement_min_waterlevel_device_id := some ()
  measurement_min_waterlevel_measurement_id := some ()
  output_waterpump_channel := some ()
  output_valve1_channel := some ()
  output_valve2_channel := some ()
  output_max_time := 120
  max_flooding_time := some 110
  flooding_overshoot := some 5
  max_draining_time := 60
  valve_cleaning_time := 30
  flood_device_resolvable := true
  min_device_resolvable := true

/-- A fresh state already moved to the starting phase. -/
def sampleStarting : St := { initSt 0 0 0 with phase := Phase.starting }

/-- Benign readings: flood level off, basin level on, pump reporting
on. -/
def sampleEnv : Env where
  floodRaw := Raw.off
  basinRaw := Raw.on
  pumpState := PumpRead.on

/-- The state after the successful starting tick at time 0 under
sampleCfg and sampleEnv: in filling, cleaning counter 1, pump just
turned on. -/
def sampleFilling : St := (loop sampleCfg sampleStarting 0 sampleEnv).1

/-- A sample persisted statistics store: flooding count 5, every other
channel 7. -/
def sampleStore : ℕ → ℚ := fun ch => if ch = 0 then 5 else 7

/-- C1 counterexample: with a persisted flooding count of 5, invoking
button_reset_errors leaves the persisted flooding count (channel 0)
reading 0, not its previous value 5 — the command writes value 0 to
channel 0 as well as to channel 1, so the flood count does not remain
unchanged as the claim states. -/
theorem reset_errors_changes_flood_count_cex :
    button_reset_errors sampleStore 0 = 0 ∧ sampleStore 0 = 5 := by
  constructor <;> decide

/-- C1 amended: after button_reset_errors, the persisted error counter
(channel 1) reads 0, the persisted flooding count (channel 0) also
reads 0, and every other statistics channel is unchanged. -/
theorem reset_errors_zeroes_both_counters (store : ℕ → ℚ) :
    button_reset_errors store 1 = 0 ∧ button_reset_errors store 0 = 0 ∧
    ∀ ch : ℕ, ch ≠ 0 → ch ≠ 1 → button_reset_errors store ch = store ch := by
  refine ⟨rfl, rfl, ?_⟩
  intro ch h0 h1
  simp [button_reset_errors, add_measurements_influxdb, button_reset_errors_write,
    List.foldl, h0, h1]

/-- Witness for the amended C1 theorem at the sample store and
channel 2. -/
theorem reset_errors_zeroes_both_counters_witness :
    button_reset_errors sampleStore 1 = 0 ∧ button_reset_errors sampleStore 2 = sampleStore 2 :=
  ⟨(reset_errors_zeroes_both_counters sampleStore).1,
   (reset_errors_zeroes_both_counters sampleStore).2.2 2 (by decide) (by decide)⟩

/-- C2 counterexample: in the starting phase with every reference
configured and a fresh flood reading of off, a basin (minimum level)
reading of On makes the controller proceed to filling on this very
tick — refuting the claim that it proceeds only when the basin sensor
reads Off (an Off reading in fact makes it stay in starting, as the
amended theorem shows). -/
theorem starting_proceeds_on_basin_on_cex :
    Env.basinRaw { floodRaw := Raw.off, basinRaw := Raw.on, pumpState := PumpRead.on } = Raw.on
    ∧ (loop sampleCfg sampleStarting 0
        { floodRaw := Raw.off, basinRaw := Raw.on, pumpState := PumpRead.on }).1.phase
      = Phase.filling := by
  constructor <;> decide

/-- C6 counterexample: a tick in the error phase emits exactly a
deactivation request followed by the raised exception; in particular it
emits no output-off command for the pump, so the claim that this path
forces all outputs off is false (the source calls set_controller_off,
not all_outputs_off). -/
theorem error_tick_no_outputs_off_cex :
    (loop sampleCfg { sampleStarting with phase := Phase.error } 3 sampleEnv).2
      = [Eff.deactivate, Eff.raiseInvalidErrorState]
    ∧ Eff.outputOff Dev.waterpump ∉
        (loop sampleCfg { sampleStarting with phase := Phase.error } 3 sampleEnv).2 := by
  constructor <;> decide

/-- C7 counterexample: a starting tick taken with the retry counter at
3 increments it to 4 before the bound check, so the post-state holds
starting_tries = 4 — an observable value greater than 3, refuting the
claimed bound; that same tick transitions to error. -/
theorem starting_tries_reaches_four_cex :
    (loop sampleCfg { sampleStarting with starting_tries := some 3 } 0 sampleEnv).1.starting_tries
      = some 4
    ∧ (loop sampleCfg { sampleStarting with starting_tries := some 3 } 0 sampleEnv).1.phase
      = Phase.error := by
  constructor <;> decide

/-- C8 counterexample: on the first filling tick after starting (the
cleaning counter is 1), inside the cleaning window, the valve command
emitted is valve-2-on — not valve-1-on as the claim states the
sub-sequence begins with (the counter is pre-incremented, so the first
selector is 2 mod 4). -/
theorem cleaning_starts_with_valve2_cex :
    valveEffs (loop sampleCfg sampleFilling 1 sampleEnv).2 = [Eff.outputOn Dev.valve2 120]
    ∧ Eff.outputOn Dev.valve1 120 ∉ (loop sampleCfg sampleFilling 1 sampleEnv).2 := by
  constructor <;>
    norm_num +decide [loop, on_starting, on_filling, filling_cleaning, filling_basin,
      filling_level, read_flood_waterlevel,
      read_basin_waterlevel, check_force_measurement, proceed_to_filling, fireError, on_error,
      write_statistics, advanceTimer, sampleCfg, sampleStarting, sampleEnv, sampleFilling,
      initSt, valveEffs, isValveEff, List.filter]

/-- C9 counterexample: with the next scheduled tick exactly equal to
the current time (timer 5, now 5) and the phase drained, the tick is
due and processed, yet the next-tick timestamp stays 5 — it is not
advanced until it exceeds the current time — and no state-machine step
is dispatched (the phase match has no case for drained). -/
theorem timer_no_advance_at_exact_due_cex :
    (loop sampleCfg { sampleStarting with phase := Phase.drained, timer_loop := 5 } 5 sampleEnv).1.timer_loop = 5
    ∧ (loop sampleCfg { sampleStarting with phase := Phase.drained, timer_loop := 5 } 5 sampleEnv).2 = [] := by
  constructor <;> decide

/-- C10 counterexample: on a filling tick where the basin read is also
invalid (basin configured, low_water_time still 0), the wildcard error
transition fires three times — once in read_basin_waterlevel, once in
read_flood_waterlevel and once in on_filling — so the error counter
rises by 3, not exactly 2, and three statistics batches are written. -/
theorem double_error_becomes_triple_cex :
    (loop sampleCfg sampleFilling 1
      { floodRaw := Raw.invalid, basinRaw := Raw.invalid, pumpState := PumpRead.on }).1.error_count = 3
    ∧ countWrites (loop sampleCfg sampleFilling 1
      { floodRaw := Raw.invalid, basinRaw := Raw.invalid, pumpState := PumpRead.on }).2 = 3 := by
  constructor <;>
    norm_num +decide [loop, on_starting, on_filling, filling_cleaning, filling_basin,
      filling_level, read_flood_waterlevel,
      read_basin_waterlevel, check_force_measurement, proceed_to_filling, fireError, on_error,
      write_statistics, advanceTimer, sampleCfg, sampleStarting, sampleEnv, sampleFilling,
      initSt, countWrites, isWriteStats, List.filter]

/-! Helper lemmas: dispatch shape of loop, characterization of the
sensor-read helpers, and bookkeeping of statistics writes. -/

/-- A tick that is not yet due returns immediately with no state change
and no effects. -/
theorem loop_not_due (cfg : Config) (s : St) (now : ℚ) (env : Env)
    (h : now < s.timer_loop) : loop cfg s now env = (s, []) := by
  unfold loop
  rw [if_pos h]

/-- A due tick in idle advances the timer and fires start (idle to
starting, no callback). -/
theorem loop_due_idle (cfg : Config) (s : St) (now : ℚ) (env : Env)
    (hph : s.phase = Phase.idle) (h : s.timer_loop ≤ now) :
    loop cfg s now env
      = ({ s with timer_loop := advanceTimer s.timer_loop cfg.period now,
                  phase := Phase.starting }, []) := by
  unfold loop
  rw [if_neg (not_lt.2 h)]
  dsimp only
  rw [hph]

/-- A due tick in starting dispatches exactly the on_starting handler on
the timer-advanced state. -/
theorem loop_due_starting (cfg : Config) (s : St) (now : ℚ) (env : Env)
    (hph : s.phase = Phase.starting) (h : s.timer_loop ≤ now) :
    loop cfg s now env
      = on_starting cfg { s with timer_loop := advanceTimer s.timer_loop cfg.period now } now env := by
  unfold loop
  rw [if_neg (not_lt.2 h)]
  dsimp only
  rw [hph]

/-- A due tick in filling dispatches exactly the on_filling handler on
the timer-advanced state. -/
theorem loop_due_filling (cfg : Config) (s : St) (now : ℚ) (env : Env)
    (hph : s.phase = Phase.filling) (h : s.timer_loop ≤ now) :
    loop cfg s now env
      = on_filling cfg { s with timer_loop := advanceTimer s.timer_loop cfg.period now } now env := by
  unfold loop
  rw [if_neg (not_lt.2 h)]
  dsimp only
  rw [hph]

/-- A due tick in draining dispatches exactly the on_draining handler on
the timer-advanced state. -/
theorem loop_due_draining (cfg : Config) (s : St) (now : ℚ) (env : Env)
    (hph : s.phase = Phase.draining) (h : s.timer_loop ≤ now) :
    loop cfg s now env
      = on_draining cfg { s with timer_loop := advanceTimer s.timer_loop cfg.period now } now env := by
  unfold loop
  rw [if_neg (not_lt.2 h)]
  dsimp only
  rw [hph]

/-- A due tick in error requests deactivation and raises. -/
theorem loop_due_error (cfg : Config) (s : St) (now : ℚ) (env : Env)
    (hph : s.phase = Phase.error) (h : s.timer_loop ≤ now) :
    loop cfg s now env
      = ({ s with timer_loop := advanceTimer s.timer_loop cfg.period now },
         [Eff.deactivate, Eff.raiseInvalidErrorState]) := by
  unfold loop
  rw [if_neg (not_lt.2 h)]
  dsimp only
  rw [hph]

/-- A due tick in full, drained or shutdown advances the timer and
dispatches nothing (the phase match of loop has no case for these). -/
theorem loop_due_nodispatch (cfg : Config) (s : St) (now : ℚ) (env : Env)
    (hph : s.phase = Phase.full ∨ s.phase = Phase.drained ∨ s.phase = Phase.shutdown)
    (h : s.timer_loop ≤ now) :
    loop cfg s now env
      = ({ s with timer_loop := advanceTimer s.timer_loop cfg.period now }, []) := by
  unfold loop
  rw [if_neg (not_lt.2 h)]
  dsimp only
  rcases hph with hph | hph | hph <;> rw [hph]

/-- Splitting countWrites over concatenation. -/
theorem countWrites_append (a b : List Eff) :
    countWrites (a ++ b) = countWrites a + countWrites b := by
  simp [countWrites, List.filter_append]

/-- A list with no statistics write trivially satisfies the
write-then-deactivate discipline. -/
theorem wbd_of_no_writes (l : List Eff) (h : countWrites l = 0) :
    writesBeforeDeact l = true := by
  induction l with
  | nil => rfl
  | cons e rest ih =>
      simp only [countWrites, List.filter] at h
      cases he : isWriteStats e with
      | false =>
          simp only [he] at h
          simp [writesBeforeDeact, he, ih (by simpa [countWrites] using h)]
      | true => simp [he] at h
/-- The write-then-deactivate discipline is preserved by concatenation. -/
theorem wbd_append (a b : List Eff) (ha : writesBeforeDeact a = true)
    (hb : writesBeforeDeact b = true) : writesBeforeDeact (a ++ b) = true := by
  induction a with
  | nil => simpa using hb
  | cons e rest ih =>
      simp only [writesBeforeDeact, Bool.and_eq_true, Bool.or_eq_true] at ha
      rcases ha with ⟨h1, h2⟩
      have := ih h2
      simp only [List.cons_append, writesBeforeDeact, Bool.and_eq_true, Bool.or_eq_true]
      refine ⟨?_, this⟩
      rcases h1 with h1 | h1
      · exact Or.inl h1
      · exact Or.inr (by simp [List.any_append, h1])

/-- Splitting valveEffs over concatenation. -/
theorem valveEffs_append (a b : List Eff) :
    valveEffs (a ++ b) = valveEffs a ++ valveEffs b := by
  simp [valveEffs, List.filter_append]

/-- check_force_measurement only updates the rate-limiter slot, to the
value given by forceSlot. -/
theorem check_force_st_eq (s : St) (now : ℚ) :
    (check_force_measurement s now).1 = { s with last_force_measurement_time := forceSlot s now } := by
  unfold check_force_measurement forceSlot
  cases h : s.last_force_measurement_time with
  | none => rfl
  | some t =>
      by_cases hlt : now - t < 1
      · simp only [hlt, if_true]
        rw [← h]
      · simp [hlt]

/-- check_force_measurement emits at most the forced-refresh request. -/
theorem check_force_effs (s : St) (now : ℚ) :
    (check_force_measurement s now).2 = [] ∨ (check_force_measurement s now).2 = [Eff.forceMeasure] := by
  unfold check_force_measurement
  cases s.last_force_measurement_time with
  | none => right; rfl
  | some t =>
      by_cases hlt : now - t < 1
      · left; simp [hlt]
      · right; simp [hlt]

/-- The value returned by read_flood_waterlevel as a function of the raw
flood sample. -/
theorem read_flood_val (s : St) (now : ℚ) (env : Env) :
    (read_flood_waterlevel s now env).val
      = match env.floodRaw with
        | Raw.off => some 0
        | Raw.on => some 1
        | _ => none := by
  unfold read_flood_waterlevel
  cases hf : env.floodRaw <;> simp [hf]

/-- The state after read_flood_waterlevel: phase and error counter
change exactly on an invalid sample, the limiter slot is updated, and
every other field is untouched. -/
theorem read_flood_st_eq (s : St) (now : ℚ) (env : Env) :
    (read_flood_waterlevel s now env).st
      = { s with
          phase := if env.floodRaw = Raw.invalid then Phase.error else s.phase,
          error_count := if env.floodRaw = Raw.invalid then s.error_count + 1 else s.error_count,
          last_force_measurement_time := forceSlot s now } := by
  unfold read_flood_waterlevel
  cases hf : env.floodRaw <;> simp [hf, check_force_st_eq, fireError, on_error]

/-- The effects of read_flood_waterlevel: one statistics batch exactly
on an invalid sample, no valve command, every write followed by a
deactivation request, and no raised exception. -/
theorem read_flood_effs_benign (s : St) (now : ℚ) (env : Env) :
    countWrites (read_flood_waterlevel s now env).effs
        = (if env.floodRaw = Raw.invalid then 1 else 0)
    ∧ valveEffs (read_flood_waterlevel s now env).effs = []
    ∧ writesBeforeDeact (read_flood_waterlevel s now env).effs = true
    ∧ raiseFree (read_flood_waterlevel s now env).effs = true := by
  unfold read_flood_waterlevel
  rcases check_force_effs s now with he | he <;>
    cases hf : env.floodRaw <;>
      simp [hf, he, countWrites, valveEffs, isValveEff, isWriteStats, isRaise, isDeactivate,
        raiseFree, writesBeforeDeact, fireError, on_error, write_statistics]

/-- The value returned by read_basin_waterlevel as a function of the raw
basin sample. -/
theorem read_basin_val (s : St) (now : ℚ) (env : Env) :
    (read_basin_waterlevel s now env).val
      = match env.basinRaw with
        | Raw.off => some 0
        | Raw.on => some 1
        | _ => none := by
  unfold read_basin_waterlevel
  cases hb : env.basinRaw <;> simp [hb]

/-- The state after read_basin_waterlevel: phase and error counter
change exactly on an invalid sample, the limiter slot is updated, and
every other field is untouched. -/
theorem read_basin_st_eq (s : St) (now : ℚ) (env : Env) :
    (read_basin_waterlevel s now env).st
      = { s with
          phase := if env.basinRaw = Raw.invalid then Phase.error else s.phase,
          error_count := if env.basinRaw = Raw.invalid then s.error_count + 1 else s.error_count,
          last_force_measurement_time := forceSlot s now } := by
  unfold read_basin_waterlevel
  cases hb : env.basinRaw <;> simp [hb, check_force_st_eq, fireError, on_error]

/-- The effects of read_basin_waterlevel: one statistics batch exactly
on an invalid sample, no valve command, every write followed by a
deactivation request, and no raised exception. -/
theorem read_basin_effs_benign (s : St) (now : ℚ) (env : Env) :
    countWrites (read_basin_waterlevel s now env).effs
        = (if env.basinRaw = Raw.invalid then 1 else 0)
    ∧ valveEffs (read_basin_waterlevel s now env).effs = []
    ∧ writesBeforeDeact (read_basin_waterlevel s now env).effs = true
    ∧ raiseFree (read_basin_waterlevel s now env).effs = true := by
  unfold read_basin_waterlevel
  rcases check_force_effs s now with he | he <;>
    cases hb : env.basinRaw <;>
      simp [hb, he, countWrites, valveEffs, isValveEff, isWriteStats, isRaise, isDeactivate,
        raiseFree, writesBeforeDeact, fireError, on_error, write_statistics]


/-- read_flood_waterlevel leaves timer_loop unchanged. -/
theorem rf_st_timer_loop (s : St) (now : ℚ) (env : Env) :
    (read_flood_waterlevel s now env).st.timer_loop = s.timer_loop := by
  simp [read_flood_st_eq]

/-- read_flood_waterlevel leaves starting_tries unchanged. -/
theorem rf_st_starting_tries (s : St) (now : ℚ) (env : Env) :
    (read_flood_waterlevel s now env).st.starting_tries = s.starting_tries := by
  simp [read_flood_st_eq]

/-- read_flood_waterlevel leaves fill_start_timestamp unchanged. -/
theorem rf_st_fill_start_timestamp (s : St) (now : ℚ) (env : Env) :
    (read_flood_waterlevel s now env).st.fill_start_timestamp = s.fill_start_timestamp := by
  simp [read_flood_st_eq]

/-- read_flood_waterlevel leaves flooding_time unchanged. -/
theorem rf_st_flooding_time (s : St) (now : ℚ) (env : Env) :
    (read_flood_waterlevel s now env).st.flooding_time = s.flooding_time := by
  simp [read_flood_st_eq]

/-- read_flood_waterlevel leaves overshoot_time unchanged. -/
theorem rf_st_overshoot_time (s : St) (now : ℚ) (env : Env) :
    (read_flood_waterlevel s now env).st.overshoot_time = s.overshoot_time := by
  simp [read_flood_st_eq]

/-- read_flood_waterlevel leaves flooded_high_time unchanged. -/
theorem rf_st_flooded_high_time (s : St) (now : ℚ) (env : Env) :
    (read_flood_waterlevel s now env).st.flooded_high_time = s.flooded_high_time := by
  simp [read_flood_st_eq]

/-- read_flood_waterlevel leaves flooding_volume unchanged. -/
theorem rf_st_flooding_volume (s : St) (now : ℚ) (env : Env) :
    (read_flood_waterlevel s now env).st.flooding_volume = s.flooding_volume := by
  simp [read_flood_st_eq]

/-- read_flood_waterlevel leaves draining_time unchanged. -/
theorem rf_st_draining_time (s : St) (now : ℚ) (env : Env) :
    (read_flood_waterlevel s now env).st.draining_time = s.draining_time := by
  simp [read_flood_st_eq]

/-- read_flood_waterlevel leaves draining_start_timestamp unchanged. -/
theorem rf_st_draining_start_timestamp (s : St) (now : ℚ) (env : Env) :
    (read_flood_waterlevel s now env).st.draining_start_timestamp = s.draining_start_timestamp := by
  simp [read_flood_st_eq]

/-- read_flood_waterlevel leaves low_water_time unchanged. -/
theorem rf_st_low_water_time (s : St) (now : ℚ) (env : Env) :
    (read_flood_waterlevel s now env).st.low_water_time = s.low_water_time := by
  simp [read_flood_st_eq]

/-- read_flood_waterlevel leaves cleaning_valves unchanged. -/
theorem rf_st_cleaning_valves (s : St) (now : ℚ) (env : Env) :
    (read_flood_waterlevel s now env).st.cleaning_valves = s.cleaning_valves := by
  simp [read_flood_st_eq]

/-- read_flood_waterlevel leaves flooding_count unchanged. -/
theorem rf_st_flooding_count (s : St) (now : ℚ) (env : Env) :
    (read_flood_waterlevel s now env).st.flooding_count = s.flooding_count := by
  simp [read_flood_st_eq]

/-- The phase after read_flood_waterlevel: error exactly on an invalid sample. -/
theorem rf_st_phase (s : St) (now : ℚ) (env : Env) :
    (read_flood_waterlevel s now env).st.phase
      = if env.floodRaw = Raw.invalid then Phase.error else s.phase := by
  simp [read_flood_st_eq]

/-- The error counter after read_flood_waterlevel: incremented exactly on an invalid
sample. -/
theorem rf_st_error_count (s : St) (now : ℚ) (env : Env) :
    (read_flood_waterlevel s now env).st.error_count
      = if env.floodRaw = Raw.invalid then s.error_count + 1 else s.error_count := by
  simp [read_flood_st_eq]

/-- The limiter slot after read_flood_waterlevel. -/
theorem rf_st_last (s : St) (now : ℚ) (env : Env) :
    (read_flood_waterlevel s now env).st.last_force_measurement_time = forceSlot s now := by
  simp [read_flood_st_eq]

/-- read_basin_waterlevel leaves timer_loop unchanged. -/
theorem rb_st_timer_loop (s : St) (now : ℚ) (env : Env) :
    (read_basin_waterlevel s now env).st.timer_loop = s.timer_loop := by
  simp [read_basin_st_eq]

/-- read_basin_waterlevel leaves starting_tries unchanged. -/
theorem rb_st_starting_tries (s : St) (now : ℚ) (env : Env) :
    (read_basin_waterlevel s now env).st.starting_tries = s.starting_tries := by
  simp [read_basin_st_eq]

/-- read_basin_waterlevel leaves fill_start_timestamp unchanged. -/
theorem rb_st_fill_start_timestamp (s : St) (now : ℚ) (env : Env) :
    (read_basin_waterlevel s now env).st.fill_start_timestamp = s.fill_start_timestamp := by
  simp [read_basin_st_eq]

/-- read_basin_waterlevel leaves flooding_time unchanged. -/
theorem rb_st_flooding_time (s : St) (now : ℚ) (env : Env) :
    (read_basin_waterlevel s now env).st.flooding_time = s.flooding_time := by
  simp [read_basin_st_eq]

/-- read_basin_waterlevel leaves overshoot_time unchanged. -/
theorem rb_st_overshoot_time (s : St) (now : ℚ) (env : Env) :
    (read_basin_waterlevel s now env).st.overshoot_time = s.overshoot_time := by
  simp [read_basin_st_eq]

/-- read_basin_waterlevel leaves flooded_high_time unchanged. -/
theorem rb_st_flooded_high_time (s : St) (now : ℚ) (env : Env) :
    (read_basin_waterlevel s now env).st.flooded_high_time = s.flooded_high_time := by
  simp [read_basin_st_eq]

/-- read_basin_waterlevel leaves flooding_volume unchanged. -/
theorem rb_st_flooding_volume (s : St) (now : ℚ) (env : Env) :
    (read_basin_waterlevel s now env).st.flooding_volume = s.flooding_volume := by
  simp [read_basin_st_eq]

/-- read_basin_waterlevel leaves draining_time unchanged. -/
theorem rb_st_draining_time (s : St) (now : ℚ) (env : Env) :
    (read_basin_waterlevel s now env).st.draining_time = s.draining_time := by
  simp [read_basin_st_eq]

/-- read_basin_waterlevel leaves draining_start_timestamp unchanged. -/
theorem rb_st_draining_start_timestamp (s : St) (now : ℚ) (env : Env) :
    (read_basin_waterlevel s now env).st.draining_start_timestamp = s.draining_start_timestamp := by
  simp [read_basin_st_eq]

/-- read_basin_waterlevel leaves low_water_time unchanged. -/
theorem rb_st_low_water_time (s : St) (now : ℚ) (env : Env) :
    (read_basin_waterlevel s now env).st.low_water_time = s.low_water_time := by
  simp [read_basin_st_eq]

/-- read_basin_waterlevel leaves cleaning_valves unchanged. -/
theorem rb_st_cleaning_valves (s : St) (now : ℚ) (env : Env) :
    (read_basin_waterlevel s now env).st.cleaning_valves = s.cleaning_valves := by
  simp [read_basin_st_eq]

/-- read_basin_waterlevel leaves flooding_count unchanged. -/
theorem rb_st_flooding_count (s : St) (now : ℚ) (env : Env) :
    (read_basin_waterlevel s now env).st.flooding_count = s.flooding_count := by
  simp [read_basin_st_eq]

/-- The phase after read_basin_waterlevel: error exactly on an invalid sample. -/
theorem rb_st_phase (s : St) (now : ℚ) (env : Env) :
    (read_basin_waterlevel s now env).st.phase
      = if env.basinRaw = Raw.invalid then Phase.error else s.phase := by
  simp [read_basin_st_eq]

/-- The error counter after read_basin_waterlevel: incremented exactly on an invalid
sample. -/
theorem rb_st_error_count (s : St) (now : ℚ) (env : Env) :
    (read_basin_waterlevel s now env).st.error_count
      = if env.basinRaw = Raw.invalid then s.error_count + 1 else s.error_count := by
  simp [read_basin_st_eq]

/-- The limiter slot after read_basin_waterlevel. -/
theorem rb_st_last (s : St) (now : ℚ) (env : Env) :
    (read_basin_waterlevel s now env).st.last_force_measurement_time = forceSlot s now := by
  simp [read_basin_st_eq]

/-- fireError leaves timer_loop unchanged. -/
theorem fireError_timer_loop (s : St) : (fireError s).1.timer_loop = s.timer_loop := by
  simp [fireError, on_error]

/-- fireError leaves starting_tries unchanged. -/
theorem fireError_starting_tries (s : St) : (fireError s).1.starting_tries = s.starting_tries := by
  simp [fireError, on_error]

/-- fireError leaves fill_start_timestamp unchanged. -/
theorem fireError_fill_start_timestamp (s : St) : (fireError s).1.fill_start_timestamp = s.fill_start_timestamp := by
  simp [fireError, on_error]

/-- fireError leaves flooding_time unchanged. -/
theorem fireError_flooding_time (s : St) : (fireError s).1.flooding_time = s.flooding_time := by
  simp [fireError, on_error]

/-- fireError leaves overshoot_time unchanged. -/
theorem fireError_overshoot_time (s : St) : (fireError s).1.overshoot_time = s.overshoot_time := by
  simp [fireError, on_error]

/-- fireError leaves flooded_high_time unchanged. -/
theorem fireError_flooded_high_time (s : St) : (fireError s).1.flooded_high_time = s.flooded_high_time := by
  simp [fireError, on_error]

/-- fireError leaves flooding_volume unchanged. -/
theorem fireError_flooding_volume (s : St) : (fireError s).1.flooding_volume = s.flooding_volume := by
  simp [fireError, on_error]

/-- fireError leaves draining_time unchanged. -/
theorem fireError_draining_time (s : St) : (fireError s).1.draining_time = s.draining_time := by
  simp [fireError, on_error]

/-- fireError leaves draining_start_timestamp unchanged. -/
theorem fireError_draining_start_timestamp (s : St) : (fireError s).1.draining_start_timestamp = s.draining_start_timestamp := by
  simp [fireError, on_error]

/-- fireError leaves low_water_time unchanged. -/
theorem fireError_low_water_time (s : St) : (fireError s).1.low_water_time = s.low_water_time := by
  simp [fireError, on_error]

/-- fireError leaves cleaning_valves unchanged. -/
theorem fireError_cleaning_valves (s : St) : (fireError s).1.cleaning_valves = s.cleaning_valves := by
  simp [fireError, on_error]

/-- fireError leaves flooding_count unchanged. -/
theorem fireError_flooding_count (s : St) : (fireError s).1.flooding_count = s.flooding_count := by
  simp [fireError, on_error]

/-- fireError leaves last_force_measurement_time unchanged. -/
theorem fireError_last_force_measurement_time (s : St) : (fireError s).1.last_force_measurement_time = s.last_force_measurement_time := by
  simp [fireError, on_error]

/-- fireError moves the phase to error. -/
theorem fireError_phase (s : St) : (fireError s).1.phase = Phase.error := by
  simp [fireError, on_error]

/-- fireError increments the error counter by one. -/
theorem fireError_error_count (s : St) : (fireError s).1.error_count = s.error_count + 1 := by
  simp [fireError, on_error]

/-- fireError writes exactly one statistics batch. -/
theorem fireError_countWrites (s : St) : countWrites (fireError s).2 = 1 := by
  simp [fireError, on_error, countWrites, isWriteStats, write_statistics]

/-- fireError emits the statistics write strictly before the
deactivation request. -/
theorem fireError_wbd (s : St) : writesBeforeDeact (fireError s).2 = true := by
  simp [fireError, on_error, writesBeforeDeact, isWriteStats, isDeactivate, write_statistics]

/-- fireError emits no valve command. -/
theorem fireError_valveEffs (s : St) : valveEffs (fireError s).2 = [] := by
  simp [fireError, on_error, valveEffs, isValveEff, write_statistics]

/-- fireError raises nothing. -/
theorem fireError_raiseFree (s : St) : raiseFree (fireError s).2 = true := by
  simp [fireError, on_error, raiseFree, isRaise, write_statistics]

/-- proceed_to_filling sets phase. -/
theorem proceed_phase (cfg : Config) (s : St) (now : ℚ) :
    (proceed_to_filling cfg s now).1.phase = Phase.filling := by
  simp [proceed_to_filling]

/-- proceed_to_filling leaves timer_loop unchanged. -/
theorem proceed_timer_loop (cfg : Config) (s : St) (now : ℚ) :
    (proceed_to_filling cfg s now).1.timer_loop = s.timer_loop := by
  simp [proceed_to_filling]

/-- proceed_to_filling leaves starting_tries unchanged. -/
theorem proceed_starting_tries (cfg : Config) (s : St) (now : ℚ) :
    (proceed_to_filling cfg s now).1.starting_tries = s.starting_tries := by
  simp [proceed_to_filling]

/-- proceed_to_filling sets fill_start_timestamp. -/
theorem proceed_fill_start_timestamp (cfg : Config) (s : St) (now : ℚ) :
    (proceed_to_filling cfg s now).1.fill_start_timestamp = now := by
  simp [proceed_to_filling]

/-- proceed_to_filling sets flooding_time. -/
theorem proceed_flooding_time (cfg : Config) (s : St) (now : ℚ) :
    (proceed_to_filling cfg s now).1.flooding_time = 0 := by
  simp [proceed_to_filling]

/-- proceed_to_filling sets overshoot_time. -/
theorem proceed_overshoot_time (cfg : Config) (s : St) (now : ℚ) :
    (proceed_to_filling cfg s now).1.overshoot_time = 0 := by
  simp [proceed_to_filling]

/-- proceed_to_filling sets flooded_high_time. -/
theorem proceed_flooded_high_time (cfg : Config) (s : St) (now : ℚ) :
    (proceed_to_filling cfg s now).1.flooded_high_time = 0 := by
  simp [proceed_to_filling]

/-- proceed_to_filling leaves flooding_volume unchanged. -/
theorem proceed_flooding_volume (cfg : Config) (s : St) (now : ℚ) :
    (proceed_to_filling cfg s now).1.flooding_volume = s.flooding_volume := by
  simp [proceed_to_filling]

/-- proceed_to_filling leaves draining_time unchanged. -/
theorem proceed_draining_time (cfg : Config) (s : St) (now : ℚ) :
    (proceed_to_filling cfg s now).1.draining_time = s.draining_time := by
  simp [proceed_to_filling]

/-- proceed_to_filling leaves draining_start_timestamp unchanged. -/
theorem proceed_draining_start_timestamp (cfg : Config) (s : St) (now : ℚ) :
    (proceed_to_filling cfg s now).1.draining_start_timestamp = s.draining_start_timestamp := by
  simp [proceed_to_filling]

/-- proceed_to_filling leaves low_water_time unchanged. -/
theorem proceed_low_water_time (cfg : Config) (s : St) (now : ℚ) :
    (proceed_to_filling cfg s now).1.low_water_time = s.low_water_time := by
  simp [proceed_to_filling]

/-- proceed_to_filling sets cleaning_valves. -/
theorem proceed_cleaning_valves (cfg : Config) (s : St) (now : ℚ) :
    (proceed_to_filling cfg s now).1.cleaning_valves = 1 := by
  simp [proceed_to_filling]

/-- proceed_to_filling leaves flooding_count unchanged. -/
theorem proceed_flooding_count (cfg : Config) (s : St) (now : ℚ) :
    (proceed_to_filling cfg s now).1.flooding_count = s.flooding_count := by
  simp [proceed_to_filling]

/-- proceed_to_filling leaves error_count unchanged. -/
theorem proceed_error_count (cfg : Config) (s : St) (now : ℚ) :
    (proceed_to_filling cfg s now).1.error_count = s.error_count := by
  simp [proceed_to_filling]

/-- proceed_to_filling leaves last_force_measurement_time unchanged. -/
theorem proceed_last_force_measurement_time (cfg : Config) (s : St) (now : ℚ) :
    (proceed_to_filling cfg s now).1.last_force_measurement_time = s.last_force_measurement_time := by
  simp [proceed_to_filling]

/-- proceed_to_filling writes no statistics batch. -/
theorem proceed_countWrites (cfg : Config) (s : St) (now : ℚ) :
    countWrites (proceed_to_filling cfg s now).2 = 0 := by
  unfold proceed_to_filling
  split_ifs <;> simp [countWrites, isWriteStats]

/-- proceed_to_filling trivially satisfies the write-then-deactivate
discipline. -/
theorem proceed_wbd (cfg : Config) (s : St) (now : ℚ) :
    writesBeforeDeact (proceed_to_filling cfg s now).2 = true := by
  exact wbd_of_no_writes _ (proceed_countWrites cfg s now)

/-- proceed_to_filling raises nothing. -/
theorem proceed_raiseFree (cfg : Config) (s : St) (now : ℚ) :
    raiseFree (proceed_to_filling cfg s now).2 = true := by
  unfold proceed_to_filling
  split_ifs <;> simp [raiseFree, isRaise]

/-- fireFull sets phase. -/
theorem fireFull_phase (cfg : Config) (s : St) (now : ℚ) :
    (fireFull cfg s now).1.phase = Phase.draining := by
  unfold fireFull on_full
  split_ifs <;> simp

/-- fireFull leaves timer_loop unchanged. -/
theorem fireFull_timer_loop (cfg : Config) (s : St) (now : ℚ) :
    (fireFull cfg s now).1.timer_loop = s.timer_loop := by
  unfold fireFull on_full
  split_ifs <;> simp

/-- fireFull leaves starting_tries unchanged. -/
theorem fireFull_starting_tries (cfg : Config) (s : St) (now : ℚ) :
    (fireFull cfg s now).1.starting_tries = s.starting_tries := by
  unfold fireFull on_full
  split_ifs <;> simp

/-- fireFull leaves fill_start_timestamp unchanged. -/
theorem fireFull_fill_start_timestamp (cfg : Config) (s : St) (now : ℚ) :
    (fireFull cfg s now).1.fill_start_timestamp = s.fill_start_timestamp := by
  unfold fireFull on_full
  split_ifs <;> simp

/-- fireFull leaves flooding_time unchanged. -/
theorem fireFull_flooding_time (cfg : Config) (s : St) (now : ℚ) :
    (fireFull cfg s now).1.flooding_time = s.flooding_time := by
  unfold fireFull on_full
  split_ifs <;> simp

/-- fireFull leaves overshoot_time unchanged. -/
theorem fireFull_overshoot_time (cfg : Config) (s : St) (now : ℚ) :
    (fireFull cfg s now).1.overshoot_time = s.overshoot_time := by
  unfold fireFull on_full
  split_ifs <;> simp

/-- fireFull leaves flooded_high_time unchanged. -/
theorem fireFull_flooded_high_time (cfg : Config) (s : St) (now : ℚ) :
    (fireFull cfg s now).1.flooded_high_time = s.flooded_high_time := by
  unfold fireFull on_full
  split_ifs <;> simp

/-- fireFull leaves flooding_volume unchanged. -/
theorem fireFull_flooding_volume (cfg : Config) (s : St) (now : ℚ) :
    (fireFull cfg s now).1.flooding_volume = s.flooding_volume := by
  unfold fireFull on_full
  split_ifs <;> simp

/-- fireFull leaves draining_time unchanged. -/
theorem fireFull_draining_time (cfg : Config) (s : St) (now : ℚ) :
    (fireFull cfg s now).1.draining_time = s.draining_time := by
  unfold fireFull on_full
  split_ifs <;> simp

/-- fireFull sets draining_start_timestamp. -/
theorem fireFull_draining_start_timestamp (cfg : Config) (s : St) (now : ℚ) :
    (fireFull cfg s now).1.draining_start_timestamp = now := by
  unfold fireFull on_full
  split_ifs <;> simp

/-- fireFull latches low_water_time if it is still 0. -/
theorem fireFull_low_water_time (cfg : Config) (s : St) (now : ℚ) :
    (fireFull cfg s now).1.low_water_time
      = if s.low_water_time = 0 then now - s.fill_start_timestamp else s.low_water_time := by
  unfold fireFull on_full
  split_ifs <;> simp_all

/-- fireFull leaves cleaning_valves unchanged. -/
theorem fireFull_cleaning_valves (cfg : Config) (s : St) (now : ℚ) :
    (fireFull cfg s now).1.cleaning_valves = s.cleaning_valves := by
  unfold fireFull on_full
  split_ifs <;> simp

/-- fireFull sets flooding_count. -/
theorem fireFull_flooding_count (cfg : Config) (s : St) (now : ℚ) :
    (fireFull cfg s now).1.flooding_count = s.flooding_count + 1 := by
  unfold fireFull on_full
  split_ifs <;> simp

/-- fireFull leaves error_count unchanged. -/
theorem fireFull_error_count (cfg : Config) (s : St) (now : ℚ) :
    (fireFull cfg s now).1.error_count = s.error_count := by
  unfold fireFull on_full
  split_ifs <;> simp

/-- fireFull leaves last_force_measurement_time unchanged. -/
theorem fireFull_last_force_measurement_time (cfg : Config) (s : St) (now : ℚ) :
    (fireFull cfg s now).1.last_force_measurement_time = s.last_force_measurement_time := by
  unfold fireFull on_full
  split_ifs <;> simp

/-- fireFull writes no statistics batch (all_outputs_off only). -/
theorem fireFull_countWrites (cfg : Config) (s : St) (now : ℚ) :
    countWrites (fireFull cfg s now).2 = 0 := by
  unfold fireFull on_full all_outputs_off
  split_ifs <;> simp [countWrites, isWriteStats]

/-- fireFull trivially satisfies the write-then-deactivate discipline. -/
theorem fireFull_wbd (cfg : Config) (s : St) (now : ℚ) :
    writesBeforeDeact (fireFull cfg s now).2 = true := by
  exact wbd_of_no_writes _ (fireFull_countWrites cfg s now)

/-- fireFull raises nothing. -/
theorem fireFull_raiseFree (cfg : Config) (s : St) (now : ℚ) :
    raiseFree (fireFull cfg s now).2 = true := by
  unfold fireFull on_full all_outputs_off
  split_ifs <;> simp [raiseFree, isRaise]

/-- fireDrained moves the phase to drained. -/
theorem fireDrained_phase (s : St) : (fireDrained s).1.phase = Phase.drained := by
  simp [fireDrained, on_drained]

/-- fireDrained does not change the error counter. -/
theorem fireDrained_error_count (s : St) : (fireDrained s).1.error_count = s.error_count := by
  simp [fireDrained, on_drained]

/-- fireDrained leaves starting_tries unchanged. -/
theorem fireDrained_starting_tries (s : St) :
    (fireDrained s).1.starting_tries = s.starting_tries := by
  simp [fireDrained, on_drained]

/-- fireDrained writes exactly one statistics batch. -/
theorem fireDrained_countWrites (s : St) : countWrites (fireDrained s).2 = 1 := by
  simp [fireDrained, on_drained, countWrites, isWriteStats, write_statistics]

/-- fireDrained emits the statistics write strictly before the
deactivation request. -/
theorem fireDrained_wbd (s : St) : writesBeforeDeact (fireDrained s).2 = true := by
  simp [fireDrained, on_drained, writesBeforeDeact, isWriteStats, isDeactivate, write_statistics]

/-- fireDrained raises nothing. -/
theorem fireDrained_raiseFree (s : St) : raiseFree (fireDrained s).2 = true := by
  simp [fireDrained, on_drained, raiseFree, isRaise, write_statistics]

/-- Splitting raiseFree over concatenation. -/
theorem raiseFree_append (a b : List Eff) :
    raiseFree (a ++ b) = (raiseFree a && raiseFree b) := by
  simp [raiseFree, List.all_append]

/-- The effects of the sensor-read helpers, generic corollaries. -/
theorem rf_effs_countWrites (s : St) (now : ℚ) (env : Env) :
    countWrites (read_flood_waterlevel s now env).effs
      = (if env.floodRaw = Raw.invalid then 1 else 0) :=
  (read_flood_effs_benign s now env).1

/-- No valve command from the flood read. -/
theorem rf_effs_valveEffs (s : St) (now : ℚ) (env : Env) :
    valveEffs (read_flood_waterlevel s now env).effs = [] :=
  (read_flood_effs_benign s now env).2.1

/-- Write discipline of the flood read. -/
theorem rf_effs_wbd (s : St) (now : ℚ) (env : Env) :
    writesBeforeDeact (read_flood_waterlevel s now env).effs = true :=
  (read_flood_effs_benign s now env).2.2.1

/-- The flood read raises nothing. -/
theorem rf_effs_raiseFree (s : St) (now : ℚ) (env : Env) :
    raiseFree (read_flood_waterlevel s now env).effs = true :=
  (read_flood_effs_benign s now env).2.2.2

/-- The effects of the basin read, write count. -/
theorem rb_effs_countWrites (s : St) (now : ℚ) (env : Env) :
    countWrites (read_basin_waterlevel s now env).effs
      = (if env.basinRaw = Raw.invalid then 1 else 0) :=
  (read_basin_effs_benign s now env).1

/-- No valve command from the basin read. -/
theorem rb_effs_valveEffs (s : St) (now : ℚ) (env : Env) :
    valveEffs (read_basin_waterlevel s now env).effs = [] :=
  (read_basin_effs_benign s now env).2.1

/-- Write discipline of the basin read. -/
theorem rb_effs_wbd (s : St) (now : ℚ) (env : Env) :
    writesBeforeDeact (read_basin_waterlevel s now env).effs = true :=
  (read_basin_effs_benign s now env).2.2.1

/-- The basin read raises nothing. -/
theorem rb_effs_raiseFree (s : St) (now : ℚ) (env : Env) :
    raiseFree (read_basin_waterlevel s now env).effs = true :=
  (read_basin_effs_benign s now env).2.2.2


/-- Case helper: a predicate holding on both branches holds on the
conditional. -/
theorem ite_pred {α : Sort _} (P : α → Prop) (c : Prop) [Decidable c] (a b : α)
    (ha : P a) (hb : P b) : P (ite c a b) := by
  split_ifs <;> assumption

theorem on_starting_tries (cfg : Config) (s : St) (now : ℚ) (env : Env) :
    (on_starting cfg s now env).1.starting_tries = some (next_tries s) := by
  unfold on_starting
  simp only [apply_ite (@Prod.fst St (List Eff)), apply_ite St.starting_tries,
    fireError_starting_tries, rf_st_starting_tries, rb_st_starting_tries,
    proceed_starting_tries, ite_self]

theorem on_starting_phase_shape (cfg : Config) (s : St) (now : ℚ) (env : Env) :
    (on_starting cfg s now env).1.phase = s.phase
    ∨ (on_starting cfg s now env).1.phase = Phase.filling
    ∨ (on_starting cfg s now env).1.phase = Phase.error := by
  unfold on_starting
  simp only [read_flood_val, read_basin_val, apply_ite (@Prod.fst St (List Eff)),
    apply_ite St.phase, fireError_phase, rf_st_phase, rb_st_phase, proceed_phase, ite_self]
  repeat first
    | exact Or.inl rfl
    | exact Or.inr (Or.inl rfl)
    | exact Or.inr (Or.inr rfl)
    | apply ite_pred (fun x => x = s.phase ∨ x = Phase.filling ∨ x = Phase.error)

theorem on_starting_too_many (cfg : Config) (s : St) (now : ℚ) (env : Env)
    (h : 3 < next_tries s) :
    (on_starting cfg s now env).1.phase = Phase.error := by
  unfold on_starting
  simp only [apply_ite (@Prod.fst St (List Eff)), apply_ite St.phase,
    fireError_phase, rf_st_phase, rb_st_phase, proceed_phase, ite_self]
  rw [if_pos h]


/-- The empty effect list writes nothing. -/
theorem countWrites_nil : countWrites ([] : List Eff) = 0 := rfl

/-- Concatenation preserves raise-freeness. -/
theorem raiseFree_append_tt (a b : List Eff) (ha : raiseFree a = true)
    (hb : raiseFree b = true) : raiseFree (a ++ b) = true := by
  simp [raiseFree_append, ha, hb]

/-- filling_cleaning leaves phase unchanged. -/
theorem fc_phase (cfg : Config) (s : St) :
    (filling_cleaning cfg s).1.phase = s.phase := by
  unfold filling_cleaning
  split_ifs <;> rfl

/-- filling_cleaning leaves timer_loop unchanged. -/
theorem fc_timer_loop (cfg : Config) (s : St) :
    (filling_cleaning cfg s).1.timer_loop = s.timer_loop := by
  unfold filling_cleaning
  split_ifs <;> rfl

/-- filling_cleaning leaves starting_tries unchanged. -/
theorem fc_starting_tries (cfg : Config) (s : St) :
    (filling_cleaning cfg s).1.starting_tries = s.starting_tries := by
  unfold filling_cleaning
  split_ifs <;> rfl

/-- filling_cleaning leaves fill_start_timestamp unchanged. -/
theorem fc_fill_start_timestamp (cfg : Config) (s : St) :
    (filling_cleaning cfg s).1.fill_start_timestamp = s.fill_start_timestamp := by
  unfold filling_cleaning
  split_ifs <;> rfl

/-- filling_cleaning leaves flooding_time unchanged. -/
theorem fc_flooding_time (cfg : Config) (s : St) :
    (filling_cleaning cfg s).1.flooding_time = s.flooding_time := by
  unfold filling_cleaning
  split_ifs <;> rfl

/-- filling_cleaning leaves overshoot_time unchanged. -/
theorem fc_overshoot_time (cfg : Config) (s : St) :
    (filling_cleaning cfg s).1.overshoot_time = s.overshoot_time := by
  unfold filling_cleaning
  split_ifs <;> rfl

/-- filling_cleaning leaves flooded_high_time unchanged. -/
theorem fc_flooded_high_time (cfg : Config) (s : St) :
    (filling_cleaning cfg s).1.flooded_high_time = s.flooded_high_time := by
  unfold filling_cleaning
  split_ifs <;> rfl

/-- filling_cleaning leaves flooding_volume unchanged. -/
theorem fc_flooding_volume (cfg : Config) (s : St) :
    (filling_cleaning cfg s).1.flooding_volume = s.flooding_volume := by
  unfold filling_cleaning
  split_ifs <;> rfl

/-- filling_cleaning leaves draining_time unchanged. -/
theorem fc_draining_time (cfg : Config) (s : St) :
    (filling_cleaning cfg s).1.draining_time = s.draining_time := by
  unfold filling_cleaning
  split_ifs <;> rfl

/-- filling_cleaning leaves draining_start_timestamp unchanged. -/
theorem fc_draining_start_timestamp (cfg : Config) (s : St) :
    (filling_cleaning cfg s).1.draining_start_timestamp = s.draining_start_timestamp := by
  unfold filling_cleaning
  split_ifs <;> rfl

/-- filling_cleaning leaves low_water_time unchanged. -/
theorem fc_low_water_time (cfg : Config) (s : St) :
    (filling_cleaning cfg s).1.low_water_time = s.low_water_time := by
  unfold filling_cleaning
  split_ifs <;> rfl

/-- filling_cleaning leaves flooding_count unchanged. -/
theorem fc_flooding_count (cfg : Config) (s : St) :
    (filling_cleaning cfg s).1.flooding_count = s.flooding_count := by
  unfold filling_cleaning
  split_ifs <;> rfl

/-- filling_cleaning leaves error_count unchanged. -/
theorem fc_error_count (cfg : Config) (s : St) :
    (filling_cleaning cfg s).1.error_count = s.error_count := by
  unfold filling_cleaning
  split_ifs <;> rfl

/-- filling_cleaning leaves last_force_measurement_time unchanged. -/
theorem fc_last_force_measurement_time (cfg : Config) (s : St) :
    (filling_cleaning cfg s).1.last_force_measurement_time = s.last_force_measurement_time := by
  unfold filling_cleaning
  split_ifs <;> rfl

/-- filling_cleaning writes no statistics batch. -/
theorem fc_countWrites (cfg : Config) (s : St) :
    countWrites (filling_cleaning cfg s).2 = 0 := by
  unfold filling_cleaning
  split_ifs <;> simp only [apply_ite countWrites] <;> simp [countWrites, isWriteStats, ite_self]

/-- filling_cleaning trivially satisfies the write discipline. -/
theorem fc_wbd (cfg : Config) (s : St) :
    writesBeforeDeact (filling_cleaning cfg s).2 = true := by
  exact wbd_of_no_writes _ (fc_countWrites cfg s)

/-- filling_cleaning raises nothing. -/
theorem fc_raiseFree (cfg : Config) (s : St) :
    raiseFree (filling_cleaning cfg s).2 = true := by
  unfold filling_cleaning
  split_ifs <;> simp only [apply_ite raiseFree] <;> simp [raiseFree, isRaise, ite_self]

/-- Every effect of filling_cleaning is a valve command. -/
theorem fc_valveEffs (cfg : Config) (s : St) :
    valveEffs (filling_cleaning cfg s).2 = (filling_cleaning cfg s).2 := by
  unfold filling_cleaning
  split_ifs <;> simp only [apply_ite valveEffs] <;> simp [valveEffs, isValveEff, ite_self]

/-- The cleaning counter after filling_cleaning. -/
theorem fc_cleaning_valves (cfg : Config) (s : St) :
    (filling_cleaning cfg s).1.cleaning_valves
      = if 1 ≤ s.cleaning_valves then
          (if s.flooding_time < cfg.valve_cleaning_time then s.cleaning_valves + 1 else 0)
        else s.cleaning_valves := by
  unfold filling_cleaning
  split_ifs <;> rfl

/-- The valve command of a cleaning tick inside the window, selected by
the pre-incremented counter mod 4. -/
theorem fc_effs_inside (cfg : Config) (s : St) (h1 : 1 ≤ s.cleaning_valves)
    (h2 : s.flooding_time < cfg.valve_cleaning_time) :
    (filling_cleaning cfg s).2
      = (if (s.cleaning_valves + 1) % 4 = 0 then
          (if cfg.output_valve1_channel.isSome then [Eff.outputOn Dev.valve1 cfg.output_max_time] else [])
        else if (s.cleaning_valves + 1) % 4 = 1 then
          (if cfg.output_valve1_channel.isSome then [Eff.outputOff Dev.valve1] else [])
        else if (s.cleaning_valves + 1) % 4 = 2 then
          (if cfg.output_valve2_channel.isSome then [Eff.outputOn Dev.valve2 cfg.output_max_time] else [])
        else
          (if cfg.output_valve2_channel.isSome then [Eff.outputOff Dev.valve2] else [])) := by
  unfold filling_cleaning
  rw [if_pos h1, if_pos h2]

/-- Past the cleaning window the counter is zeroed and both configured
valves are commanded on. -/
theorem fc_effs_past (cfg : Config) (s : St) (h1 : 1 ≤ s.cleaning_valves)
    (h2 : ¬ s.flooding_time < cfg.valve_cleaning_time) :
    (filling_cleaning cfg s).1.cleaning_valves = 0
    ∧ (filling_cleaning cfg s).2
      = (if cfg.output_valve1_channel.isSome then [Eff.outputOn Dev.valve1 cfg.output_max_time] else [])
          ++ (if cfg.output_valve2_channel.isSome then [Eff.outputOn Dev.valve2 cfg.output_max_time] else []) := by
  unfold filling_cleaning
  rw [if_pos h1, if_neg h2]
  exact ⟨rfl, rfl⟩

/-- With the counter at 0 the cleaning block does nothing. -/
theorem fc_effs_idle (cfg : Config) (s : St) (h1 : ¬ 1 ≤ s.cleaning_valves) :
    filling_cleaning cfg s = (s, []) := by
  unfold filling_cleaning
  rw [if_neg h1]

/-- filling_basin leaves timer_loop unchanged. -/
theorem fb_timer_loop (cfg : Config) (s : St) (now : ℚ) (env : Env) :
    (filling_basin cfg s now env).1.timer_loop = s.timer_loop := by
  unfold filling_basin
  split_ifs <;> simp only [apply_ite St.timer_loop, rb_st_timer_loop, ite_self]

/-- filling_basin leaves starting_tries unchanged. -/
theorem fb_starting_tries (cfg : Config) (s : St) (now : ℚ) (env : Env) :
    (filling_basin cfg s now env).1.starting_tries = s.starting_tries := by
  unfold filling_basin
  split_ifs <;> simp only [apply_ite St.starting_tries, rb_st_starting_tries, ite_self]

/-- filling_basin leaves fill_start_timestamp unchanged. -/
theorem fb_fill_start_timestamp (cfg : Config) (s : St) (now : ℚ) (env : Env) :
    (filling_basin cfg s now env).1.fill_start_timestamp = s.fill_start_timestamp := by
  unfold filling_basin
  split_ifs <;> simp only [apply_ite St.fill_start_timestamp, rb_st_fill_start_timestamp, ite_self]

/-- filling_basin leaves flooding_time unchanged. -/
theorem fb_flooding_time (cfg : Config) (s : St) (now : ℚ) (env : Env) :
    (filling_basin cfg s now env).1.flooding_time = s.flooding_time := by
  unfold filling_basin
  split_ifs <;> simp only [apply_ite St.flooding_time, rb_st_flooding_time, ite_self]

/-- filling_basin leaves overshoot_time unchanged. -/
theorem fb_overshoot_time (cfg : Config) (s : St) (now : ℚ) (env : Env) :
    (filling_basin cfg s now env).1.overshoot_time = s.overshoot_time := by
  unfold filling_basin
  split_ifs <;> simp only [apply_ite St.overshoot_time, rb_st_overshoot_time, ite_self]

/-- filling_basin leaves flooded_high_time unchanged. -/
theorem fb_flooded_high_time (cfg : Config) (s : St) (now : ℚ) (env : Env) :
    (filling_basin cfg s now env).1.flooded_high_time = s.flooded_high_time := by
  unfold filling_basin
  split_ifs <;> simp only [apply_ite St.flooded_high_time, rb_st_flooded_high_time, ite_self]

/-- filling_basin leaves flooding_volume unchanged. -/
theorem fb_flooding_volume (cfg : Config) (s : St) (now : ℚ) (env : Env) :
    (filling_basin cfg s now env).1.flooding_volume = s.flooding_volume := by
  unfold filling_basin
  split_ifs <;> simp only [apply_ite St.flooding_volume, rb_st_flooding_volume, ite_self]

/-- filling_basin leaves draining_time unchanged. -/
theorem fb_draining_time (cfg : Config) (s : St) (now : ℚ) (env : Env) :
    (filling_basin cfg s now env).1.draining_time = s.draining_time := by
  unfold filling_basin
  split_ifs <;> simp only [apply_ite St.draining_time, rb_st_draining_time, ite_self]

/-- filling_basin leaves draining_start_timestamp unchanged. -/
theorem fb_draining_start_timestamp (cfg : Config) (s : St) (now : ℚ) (env : Env) :
    (filling_basin cfg s now env).1.draining_start_timestamp = s.draining_start_timestamp := by
  unfold filling_basin
  split_ifs <;> simp only [apply_ite St.draining_start_timestamp, rb_st_draining_start_timestamp, ite_self]

/-- filling_basin leaves flooding_count unchanged. -/
theorem fb_flooding_count (cfg : Config) (s : St) (now : ℚ) (env : Env) :
    (filling_basin cfg s now env).1.flooding_count = s.flooding_count := by
  unfold filling_basin
  split_ifs <;> simp only [apply_ite St.flooding_count, rb_st_flooding_count, ite_self]

/-- filling_basin leaves cleaning_valves unchanged. -/
theorem fb_cleaning_valves (cfg : Config) (s : St) (now : ℚ) (env : Env) :
    (filling_basin cfg s now env).1.cleaning_valves = s.cleaning_valves := by
  unfold filling_basin
  split_ifs <;> simp only [apply_ite St.cleaning_valves, rb_st_cleaning_valves, ite_self]

/-- The phase after filling_basin: error exactly when the block runs
and the basin sample is invalid. -/
theorem fb_phase (cfg : Config) (s : St) (now : ℚ) (env : Env) :
    (filling_basin cfg s now env).1.phase
      = if (cfg.measurement_min_waterlevel_measurement_id ≠ none ∧ s.low_water_time = 0)
            ∧ env.basinRaw = Raw.invalid
        then Phase.error else s.phase := by
  unfold filling_basin
  split_ifs with h1 h2 <;>
    simp_all [apply_ite St.phase, rb_st_phase, ite_self]

/-- The error counter after filling_basin. -/
theorem fb_error_count (cfg : Config) (s : St) (now : ℚ) (env : Env) :
    (filling_basin cfg s now env).1.error_count
      = if (cfg.measurement_min_waterlevel_measurement_id ≠ none ∧ s.low_water_time = 0)
            ∧ env.basinRaw = Raw.invalid
        then s.error_count + 1 else s.error_count := by
  unfold filling_basin
  split_ifs with h1 h2 <;>
    simp_all [apply_ite St.error_count, rb_st_error_count, ite_self]

/-- The statistics batches written by filling_basin. -/
theorem fb_countWrites (cfg : Config) (s : St) (now : ℚ) (env : Env) :
    countWrites (filling_basin cfg s now env).2
      = if (cfg.measurement_min_waterlevel_measurement_id ≠ none ∧ s.low_water_time = 0)
            ∧ env.basinRaw = Raw.invalid
        then 1 else 0 := by
  unfold filling_basin
  split_ifs with h1 h2 <;> simp_all [rb_effs_countWrites, countWrites_nil]

/-- Write discipline of filling_basin. -/
theorem fb_wbd (cfg : Config) (s : St) (now : ℚ) (env : Env) :
    writesBeforeDeact (filling_basin cfg s now env).2 = true := by
  unfold filling_basin
  split_ifs <;> first | rfl | exact rb_effs_wbd _ _ _

/-- filling_basin raises nothing. -/
theorem fb_raiseFree (cfg : Config) (s : St) (now : ℚ) (env : Env) :
    raiseFree (filling_basin cfg s now env).2 = true := by
  unfold filling_basin
  split_ifs <;> first | rfl | exact rb_effs_raiseFree _ _ _

/-- filling_basin emits no valve command. -/
theorem fb_valveEffs (cfg : Config) (s : St) (now : ℚ) (env : Env) :
    valveEffs (filling_basin cfg s now env).2 = [] := by
  unfold filling_basin
  split_ifs <;> first | rfl | exact rb_effs_valveEffs _ _ _


/-- filling_level on a missing or invalid flood sample: the helper
result (error already fired inside on invalid) is passed to a second
explicit error firing. -/
theorem fl_eq_err (cfg : Config) (s : St) (now : ℚ) (env : Env)
    (hf : env.floodRaw = Raw.missing ∨ env.floodRaw = Raw.invalid) :
    filling_level cfg s now env
      = ((fireError (read_flood_waterlevel s now env).st).1,
         (read_flood_waterlevel s now env).effs
           ++ (fireError (read_flood_waterlevel s now env).st).2) := by
  unfold filling_level
  rcases hf with hf | hf <;> simp [read_flood_val, hf]

/-- filling_level on an off flood sample: keep filling. -/
theorem fl_eq_off (cfg : Config) (s : St) (now : ℚ) (env : Env)
    (hf : env.floodRaw = Raw.off) :
    filling_level cfg s now env
      = ((read_flood_waterlevel s now env).st, (read_flood_waterlevel s now env).effs) := by
  unfold filling_level
  simp [read_flood_val, hf]

/-- filling_level on an on flood sample while the overshoot dwell has
not yet elapsed: latch flooded_high_time if still 0, record the
overshoot time, stay. -/
theorem fl_eq_wait (cfg : Config) (s : St) (now : ℚ) (env : Env) (ov : ℚ)
    (hf : env.floodRaw = Raw.on) (ho : cfg.flooding_overshoot = some ov)
    (hlt : now - (if s.flooded_high_time = 0 then now else s.flooded_high_time) < ov) :
    filling_level cfg s now env
      = ({ (read_flood_waterlevel s now env).st with
            flooded_high_time := (if s.flooded_high_time = 0 then now else s.flooded_high_time),
            overshoot_time :=
              now - (if s.flooded_high_time = 0 then now else s.flooded_high_time) },
         (read_flood_waterlevel s now env).effs) := by
  by_cases hz : s.flooded_high_time = 0
  · rw [if_pos hz] at hlt
    norm_num at hlt
    unfold filling_level
    simp [read_flood_val, hf, ho, hz, rf_st_flooded_high_time, hlt]
  · rw [if_neg hz] at hlt
    unfold filling_level
    simp [read_flood_val, hf, ho, hz, rf_st_flooded_high_time, hlt]

/-- filling_level on an on flood sample once the overshoot dwell has
elapsed: fire full. -/
theorem fl_eq_full (cfg : Config) (s : St) (now : ℚ) (env : Env) (ov : ℚ)
    (hf : env.floodRaw = Raw.on) (ho : cfg.flooding_overshoot = some ov)
    (hge : ¬ now - (if s.flooded_high_time = 0 then now else s.flooded_high_time) < ov) :
    filling_level cfg s now env
      = ((fireFull cfg
            { (read_flood_waterlevel s now env).st with
              flooded_high_time := (if s.flooded_high_time = 0 then now else s.flooded_high_time),
              overshoot_time :=
                now - (if s.flooded_high_time = 0 then now else s.flooded_high_time) } now).1,
         (read_flood_waterlevel s now env).effs
           ++ (fireFull cfg
              { (read_flood_waterlevel s now env).st with
                flooded_high_time := (if s.flooded_high_time = 0 then now else s.flooded_high_time),
                overshoot_time :=
                  now - (if s.flooded_high_time = 0 then now else s.flooded_high_time) } now).2) := by
  by_cases hz : s.flooded_high_time = 0
  · rw [if_pos hz] at hge
    norm_num at hge
    unfold filling_level
    simp [read_flood_val, hf, ho, hz, rf_st_flooded_high_time, hge]
  · rw [if_neg hz] at hge
    unfold filling_level
    simp [read_flood_val, hf, ho, hz, rf_st_flooded_high_time, hge]

/-- filling_level on an on flood sample with the overshoot option
missing: the comparison raises a TypeError. -/
theorem fl_eq_typeerr (cfg : Config) (s : St) (now : ℚ) (env : Env)
    (hf : env.floodRaw = Raw.on) (ho : cfg.flooding_overshoot = none) :
    filling_level cfg s now env
      = ({ (read_flood_waterlevel s now env).st with
            flooded_high_time := (if s.flooded_high_time = 0 then now else s.flooded_high_time),
            overshoot_time :=
              now - (if s.flooded_high_time = 0 then now else s.flooded_high_time) },
         (read_flood_waterlevel s now env).effs ++ [Eff.raiseTypeErr]) := by
  unfold filling_level
  by_cases hz : s.flooded_high_time = 0 <;>
    simp [read_flood_val, hf, ho, hz, rf_st_flooded_high_time]

/-- on_filling with the max-flooding option missing: TypeError. -/
theorem of_eq_typeerr (cfg : Config) (s : St) (now : ℚ) (env : Env)
    (hm : cfg.max_flooding_time = none) :
    on_filling cfg s now env
      = ({ s with flooding_time := now - s.fill_start_timestamp }, [Eff.raiseTypeErr]) := by
  unfold on_filling
  simp [hm]

/-- on_filling past the maximum flooding time: give up. -/
theorem of_eq_timeout (cfg : Config) (s : St) (now : ℚ) (env : Env) (mft : ℚ)
    (hm : cfg.max_flooding_time = some mft) (ht : mft < now - s.fill_start_timestamp) :
    on_filling cfg s now env
      = fireError { s with flooding_time := now - s.fill_start_timestamp } := by
  unfold on_filling
  simp [hm, ht]

/-- on_filling with the pump not reading on: give up. -/
theorem of_eq_pump (cfg : Config) (s : St) (now : ℚ) (env : Env) (mft : ℚ)
    (hm : cfg.max_flooding_time = some mft) (ht : ¬ mft < now - s.fill_start_timestamp)
    (hp : env.pumpState ≠ PumpRead.on) :
    on_filling cfg s now env
      = fireError { s with flooding_time := now - s.fill_start_timestamp } := by
  unfold on_filling
  cases hps : env.pumpState <;> simp_all [hm, ht]

/-- on_filling on the main path: the cleaning, basin and level blocks
run in order on the time-updated state. -/
theorem of_eq_run (cfg : Config) (s : St) (now : ℚ) (env : Env) (mft : ℚ)
    (hm : cfg.max_flooding_time = some mft) (ht : ¬ mft < now - s.fill_start_timestamp)
    (hp : env.pumpState = PumpRead.on) :
    on_filling cfg s now env
      = ((filling_level cfg
            (filling_basin cfg
              (filling_cleaning cfg { s with flooding_time := now - s.fill_start_timestamp }).1
              now env).1 now env).1,
         (filling_cleaning cfg { s with flooding_time := now - s.fill_start_timestamp }).2
           ++ (filling_basin cfg
                (filling_cleaning cfg { s with flooding_time := now - s.fill_start_timestamp }).1
                now env).2
           ++ (filling_level cfg
                (filling_basin cfg
                  (filling_cleaning cfg { s with flooding_time := now - s.fill_start_timestamp }).1
                  now env).1 now env).2) := by
  unfold on_filling
  simp [hm, ht, hp]

/-- on_draining past the maximum draining time: give up. -/
theorem od_eq_timeout (cfg : Config) (s : St) (now : ℚ) (env : Env)
    (ht : cfg.max_draining_time < now - s.draining_start_timestamp) :
    on_draining cfg s now env
      = fireError { s with draining_time := now - s.draining_start_timestamp } := by
  unfold on_draining
  simp [ht]

/-- on_draining on a missing or invalid flood sample: error (fired
twice on invalid, once inside the helper and once here). -/
theorem od_eq_err (cfg : Config) (s : St) (now : ℚ) (env : Env)
    (ht : ¬ cfg.max_draining_time < now - s.draining_start_timestamp)
    (hf : env.floodRaw = Raw.missing ∨ env.floodRaw = Raw.invalid) :
    on_draining cfg s now env
      = ((fireError (read_flood_waterlevel
            { s with draining_time := now - s.draining_start_timestamp } now env).st).1,
         (read_flood_waterlevel
            { s with draining_time := now - s.draining_start_timestamp } now env).effs
           ++ (fireError (read_flood_waterlevel
              { s with draining_time := now - s.draining_start_timestamp } now env).st).2) := by
  unfold on_draining
  rcases hf with hf | hf <;> simp [ht, read_flood_val, hf]

/-- on_draining on an off flood sample: drained. -/
theorem od_eq_drained (cfg : Config) (s : St) (now : ℚ) (env : Env)
    (ht : ¬ cfg.max_draining_time < now - s.draining_start_timestamp)
    (hf : env.floodRaw = Raw.off) :
    on_draining cfg s now env
      = ((fireDrained (read_flood_waterlevel
            { s with draining_time := now - s.draining_start_timestamp } now env).st).1,
         (read_flood_waterlevel
            { s with draining_time := now - s.draining_start_timestamp } now env).effs
           ++ (fireDrained (read_flood_waterlevel
              { s with draining_time := now - s.draining_start_timestamp } now env).st).2) := by
  unfold on_draining
  simp [ht, read_flood_val, hf]

/-- on_draining on an on flood sample: keep waiting. -/
theorem od_eq_on (cfg : Config) (s : St) (now : ℚ) (env : Env)
    (ht : ¬ cfg.max_draining_time < now - s.draining_start_timestamp)
    (hf : env.floodRaw = Raw.on) :
    on_draining cfg s now env
      = ((read_flood_waterlevel
            { s with draining_time := now - s.draining_start_timestamp } now env).st,
         (read_flood_waterlevel
            { s with draining_time := now - s.draining_start_timestamp } now env).effs) := by
  unfold on_draining
  simp [ht, read_flood_val, hf]


/-- on_starting when any startup check fails: fireError on the reset
state (too many tries, missing timing options, missing flood
measurement ids, missing pump channel, or unresolvable flood device). -/
theorem os_eq_error (cfg : Config) (s : St) (now : ℚ) (env : Env)
    (h : 3 < next_tries s
      ∨ (cfg.max_flooding_time = none ∨ cfg.flooding_overshoot = none)
      ∨ (cfg.measurement_flood_waterlevel_device_id = none
          ∨ cfg.measurement_flood_waterlevel_measurement_id = none)
      ∨ cfg.output_waterpump_channel = none
      ∨ cfg.flood_device_resolvable = false) :
    on_starting cfg s now env
      = fireError { s with flooding_time := 0, low_water_time := 0,
                           starting_tries := some (next_tries s) } := by
  unfold on_starting
  rcases h with h | h | h | h | h <;> simp [h, ite_self]

/-- on_starting with all checks passing and a flood reading other than
off: log and retry (the error trigger fired inside the helper when the
reading was invalid). -/
theorem os_eq_flood_retry (cfg : Config) (s : St) (now : ℚ) (env : Env)
    (h1 : ¬ 3 < next_tries s)
    (h2 : cfg.max_flooding_time ≠ none) (h3 : cfg.flooding_overshoot ≠ none)
    (h4 : cfg.measurement_flood_waterlevel_device_id ≠ none)
    (h5 : cfg.measurement_flood_waterlevel_measurement_id ≠ none)
    (h6 : cfg.output_waterpump_channel ≠ none)
    (h7 : cfg.flood_device_resolvable = true)
    (hf : env.floodRaw ≠ Raw.off) :
    on_starting cfg s now env
      = ((read_flood_waterlevel
            { s with flooding_time := 0, low_water_time := 0,
                     starting_tries := some (next_tries s) } now env).st,
         (read_flood_waterlevel
            { s with flooding_time := 0, low_water_time := 0,
                     starting_tries := some (next_tries s) } now env).effs) := by
  unfold on_starting
  cases hfr : env.floodRaw <;>
    simp_all [read_flood_val]

/-- on_starting with all checks passing, flood off and no min
measurement configured: proceed to filling. -/
theorem os_eq_nomin (cfg : Config) (s : St) (now : ℚ) (env : Env)
    (h1 : ¬ 3 < next_tries s)
    (h2 : cfg.max_flooding_time ≠ none) (h3 : cfg.flooding_overshoot ≠ none)
    (h4 : cfg.measurement_flood_waterlevel_device_id ≠ none)
    (h5 : cfg.measurement_flood_waterlevel_measurement_id ≠ none)
    (h6 : cfg.output_waterpump_channel ≠ none)
    (h7 : cfg.flood_device_resolvable = true)
    (hf : env.floodRaw = Raw.off)
    (hmin : cfg.measurement_min_waterlevel_measurement_id = none) :
    on_starting cfg s now env
      = ((proceed_to_filling cfg
            (read_flood_waterlevel
              { s with flooding_time := 0, low_water_time := 0,
                       starting_tries := some (next_tries s) } now env).st now).1,
         (read_flood_waterlevel
            { s with flooding_time := 0, low_water_time := 0,
                     starting_tries := some (next_tries s) } now env).effs
           ++ (proceed_to_filling cfg
              (read_flood_waterlevel
                { s with flooding_time := 0, low_water_time := 0,
                         starting_tries := some (next_tries s) } now env).st now).2) := by
  unfold on_starting
  simp_all [read_flood_val, hf]

/-- on_starting with flood off, a min measurement configured but its
device unresolvable: fireError on the post-read state. -/
theorem os_eq_min_unres (cfg : Config) (s : St) (now : ℚ) (env : Env)
    (h1 : ¬ 3 < next_tries s)
    (h2 : cfg.max_flooding_time ≠ none) (h3 : cfg.flooding_overshoot ≠ none)
    (h4 : cfg.measurement_flood_waterlevel_device_id ≠ none)
    (h5 : cfg.measurement_flood_waterlevel_measurement_id ≠ none)
    (h6 : cfg.output_waterpump_channel ≠ none)
    (h7 : cfg.flood_device_resolvable = true)
    (hf : env.floodRaw = Raw.off)
    (hmin : cfg.measurement_min_waterlevel_measurement_id ≠ none)
    (hres : cfg.min_device_resolvable = false) :
    on_starting cfg s now env
      = ((fireError (read_flood_waterlevel
            { s with flooding_time := 0, low_water_time := 0,
                     starting_tries := some (next_tries s) } now env).st).1,
         (read_flood_waterlevel
            { s with flooding_time := 0, low_water_time := 0,
                     starting_tries := some (next_tries s) } now env).effs
           ++ (fireError (read_flood_waterlevel
              { s with flooding_time := 0, low_water_time := 0,
                       starting_tries := some (next_tries s) } now env).st).2) := by
  unfold on_starting
  simp_all [read_flood_val, hf]

/-- on_starting with flood off, min configured or resolvable, but a
basin reading other than on: hold in starting (the error trigger fired
inside the helper when the reading was invalid). -/
theorem os_eq_basin_hold (cfg : Config) (s : St) (now : ℚ) (env : Env)
    (h1 : ¬ 3 < next_tries s)
    (h2 : cfg.max_flooding_time ≠ none) (h3 : cfg.flooding_overshoot ≠ none)
    (h4 : cfg.measurement_flood_waterlevel_device_id ≠ none)
    (h5 : cfg.measurement_flood_waterlevel_measurement_id ≠ none)
    (h6 : cfg.output_waterpump_channel ≠ none)
    (h7 : cfg.flood_device_resolvable = true)
    (hf : env.floodRaw = Raw.off)
    (hmin : cfg.measurement_min_waterlevel_measurement_id ≠ none)
    (hres : cfg.min_device_resolvable = true)
    (hb : env.basinRaw ≠ Raw.on) :
    on_starting cfg s now env
      = ((read_basin_waterlevel
            (read_flood_waterlevel
              { s with flooding_time := 0, low_water_time := 0,
                       starting_tries := some (next_tries s) } now env).st now env).st,
         (read_flood_waterlevel
            { s with flooding_time := 0, low_water_time := 0,
                     starting_tries := some (next_tries s) } now env).effs
           ++ (read_basin_waterlevel
              (read_flood_waterlevel
                { s with flooding_time := 0, low_water_time := 0,
                         starting_tries := some (next_tries s) } now env).st now env).effs) := by
  unfold on_starting
  cases hbr : env.basinRaw <;>
    simp_all [read_flood_val, read_basin_val, hf]

/-- on_starting with flood off and basin on: proceed to filling. -/
theorem os_eq_basin_on (cfg : Config) (s : St) (now : ℚ) (env : Env)
    (h1 : ¬ 3 < next_tries s)
    (h2 : cfg.max_flooding_time ≠ none) (h3 : cfg.flooding_overshoot ≠ none)
    (h4 : cfg.measurement_flood_waterlevel_device_id ≠ none)
    (h5 : cfg.measurement_flood_waterlevel_measurement_id ≠ none)
    (h6 : cfg.output_waterpump_channel ≠ none)
    (h7 : cfg.flood_device_resolvable = true)
    (hf : env.floodRaw = Raw.off)
    (hmin : cfg.measurement_min_waterlevel_measurement_id ≠ none)
    (hres : cfg.min_device_resolvable = true)
    (hb : env.basinRaw = Raw.on) :
    on_starting cfg s now env
      = ((proceed_to_filling cfg
            (read_basin_waterlevel
              (read_flood_waterlevel
                { s with flooding_time := 0, low_water_time := 0,
                         starting_tries := some (next_tries s) } now env).st now env).st now).1,
         (read_flood_waterlevel
            { s with flooding_time := 0, low_water_time := 0,
                     starting_tries := some (next_tries s) } now env).effs
           ++ (read_basin_waterlevel
              (read_flood_waterlevel
                { s with flooding_time := 0, low_water_time := 0,
                         starting_tries := some (next_tries s) } now env).st now env).effs
           ++ (proceed_to_filling cfg
              (read_basin_waterlevel
                (read_flood_waterlevel
                  { s with flooding_time := 0, low_water_time := 0,
                           starting_tries := some (next_tries s) } now env).st now env).st now).2) := by
  unfold on_starting
  simp_all [read_flood_val, read_basin_val, hf, hb]


/-- on_starting never reaches drained. -/
theorem on_starting_not_drained (cfg : Config) (s : St) (now : ℚ) (env : Env)
    (hnd : s.phase ≠ Phase.drained) :
    (on_starting cfg s now env).1.phase ≠ Phase.drained := by
  rcases on_starting_phase_shape cfg s now env with h | h | h <;> rw [h] <;> simp_all

/-- on_starting writes one statistics batch per error entry: the
error-counter increase equals the number of batches written. -/
theorem on_starting_ec (cfg : Config) (s : St) (now : ℚ) (env : Env) :
    (on_starting cfg s now env).1.error_count
      = s.error_count + (countWrites (on_starting cfg s now env).2 : ℚ) := by
  by_cases hA : (3 < next_tries s
      ∨ (cfg.max_flooding_time = none ∨ cfg.flooding_overshoot = none)
      ∨ (cfg.measurement_flood_waterlevel_device_id = none
          ∨ cfg.measurement_flood_waterlevel_measurement_id = none)
      ∨ cfg.output_waterpump_channel = none
      ∨ cfg.flood_device_resolvable = false)
  · rw [os_eq_error cfg s now env hA]
    simp [fireError_error_count, fireError_countWrites]
  · push_neg at hA
    obtain ⟨h1, ⟨h2, h3⟩, ⟨h4, h5⟩, h6, h7⟩ := hA
    have h7 : cfg.flood_device_resolvable = true := by
      revert h7
      cases cfg.flood_device_resolvable <;> simp
    rw [← not_lt] at h1
    by_cases hf : env.floodRaw = Raw.off
    · by_cases hmin : cfg.measurement_min_waterlevel_measurement_id = none
      · rw [os_eq_nomin cfg s now env h1 h2 h3 h4 h5 h6 h7 hf hmin]
        simp [countWrites_append, rf_effs_countWrites, proceed_countWrites,
          rf_st_error_count, proceed_error_count, hf]
      · cases hres : cfg.min_device_resolvable with
        | false =>
            rw [os_eq_min_unres cfg s now env h1 h2 h3 h4 h5 h6 h7 hf hmin hres]
            simp [countWrites_append, rf_effs_countWrites, fireError_countWrites,
              rf_st_error_count, fireError_error_count, hf]
        | true =>
            by_cases hb : env.basinRaw = Raw.on
            · rw [os_eq_basin_on cfg s now env h1 h2 h3 h4 h5 h6 h7 hf hmin hres hb]
              simp [countWrites_append, rf_effs_countWrites, rb_effs_countWrites,
                proceed_countWrites, rf_st_error_count, rb_st_error_count,
                proceed_error_count, hf, hb]
            · rw [os_eq_basin_hold cfg s now env h1 h2 h3 h4 h5 h6 h7 hf hmin hres hb]
              simp only [countWrites_append, rf_effs_countWrites, rb_effs_countWrites,
                rf_st_error_count, rb_st_error_count, hf]
              split_ifs <;> push_cast <;> ring
    · rw [os_eq_flood_retry cfg s now env h1 h2 h3 h4 h5 h6 h7 hf]
      simp only [rf_effs_countWrites, rf_st_error_count]
      split_ifs <;> push_cast <;> ring

/-- Every statistics write of on_starting is followed by a deactivation
request. -/
theorem on_starting_wbd (cfg : Config) (s : St) (now : ℚ) (env : Env) :
    writesBeforeDeact (on_starting cfg s now env).2 = true := by
  by_cases hA : (3 < next_tries s
      ∨ (cfg.max_flooding_time = none ∨ cfg.flooding_overshoot = none)
      ∨ (cfg.measurement_flood_waterlevel_device_id = none
          ∨ cfg.measurement_flood_waterlevel_measurement_id = none)
      ∨ cfg.output_waterpump_channel = none
      ∨ cfg.flood_device_resolvable = false)
  · rw [os_eq_error cfg s now env hA]
    exact fireError_wbd _
  · push_neg at hA
    obtain ⟨h1, ⟨h2, h3⟩, ⟨h4, h5⟩, h6, h7⟩ := hA
    have h7 : cfg.flood_device_resolvable = true := by
      revert h7
      cases cfg.flood_device_resolvable <;> simp
    rw [← not_lt] at h1
    by_cases hf : env.floodRaw = Raw.off
    · by_cases hmin : cfg.measurement_min_waterlevel_measurement_id = none
      · rw [os_eq_nomin cfg s now env h1 h2 h3 h4 h5 h6 h7 hf hmin]
        exact wbd_append _ _ (rf_effs_wbd _ _ _) (proceed_wbd _ _ _)
      · cases hres : cfg.min_device_resolvable with
        | false =>
            rw [os_eq_min_unres cfg s now env h1 h2 h3 h4 h5 h6 h7 hf hmin hres]
            exact wbd_append _ _ (rf_effs_wbd _ _ _) (fireError_wbd _)
        | true =>
            by_cases hb : env.basinRaw = Raw.on
            · rw [os_eq_basin_on cfg s now env h1 h2 h3 h4 h5 h6 h7 hf hmin hres hb]
              exact wbd_append _ _
                (wbd_append _ _ (rf_effs_wbd _ _ _) (rb_effs_wbd _ _ _)) (proceed_wbd _ _ _)
            · rw [os_eq_basin_hold cfg s now env h1 h2 h3 h4 h5 h6 h7 hf hmin hres hb]
              exact wbd_append _ _ (rf_effs_wbd _ _ _) (rb_effs_wbd _ _ _)
    · rw [os_eq_flood_retry cfg s now env h1 h2 h3 h4 h5 h6 h7 hf]
      exact rf_effs_wbd _ _ _

/-- on_starting raises nothing. -/
theorem on_starting_raiseFree (cfg : Config) (s : St) (now : ℚ) (env : Env) :
    raiseFree (on_starting cfg s now env).2 = true := by
  by_cases hA : (3 < next_tries s
      ∨ (cfg.max_flooding_time = none ∨ cfg.flooding_overshoot = none)
      ∨ (cfg.measurement_flood_waterlevel_device_id = none
          ∨ cfg.measurement_flood_waterlevel_measurement_id = none)
      ∨ cfg.output_waterpump_channel = none
      ∨ cfg.flood_device_resolvable = false)
  · rw [os_eq_error cfg s now env hA]
    exact fireError_raiseFree _
  · push_neg at hA
    obtain ⟨h1, ⟨h2, h3⟩, ⟨h4, h5⟩, h6, h7⟩ := hA
    have h7 : cfg.flood_device_resolvable = true := by
      revert h7
      cases cfg.flood_device_resolvable <;> simp
    rw [← not_lt] at h1
    by_cases hf : env.floodRaw = Raw.off
    · by_cases hmin : cfg.measurement_min_waterlevel_measurement_id = none
      · rw [os_eq_nomin cfg s now env h1 h2 h3 h4 h5 h6 h7 hf hmin]
        exact raiseFree_append_tt _ _ (rf_effs_raiseFree _ _ _) (proceed_raiseFree _ _ _)
      · cases hres : cfg.min_device_resolvable with
        | false =>
            rw [os_eq_min_unres cfg s now env h1 h2 h3 h4 h5 h6 h7 hf hmin hres]
            exact raiseFree_append_tt _ _ (rf_effs_raiseFree _ _ _) (fireError_raiseFree _)
        | true =>
            by_cases hb : env.basinRaw = Raw.on
            · rw [os_eq_basin_on cfg s now env h1 h2 h3 h4 h5 h6 h7 hf hmin hres hb]
              exact raiseFree_append_tt _ _
                (raiseFree_append_tt _ _ (rf_effs_raiseFree _ _ _) (rb_effs_raiseFree _ _ _))
                (proceed_raiseFree _ _ _)
            · rw [os_eq_basin_hold cfg s now env h1 h2 h3 h4 h5 h6 h7 hf hmin hres hb]
              exact raiseFree_append_tt _ _ (rf_effs_raiseFree _ _ _) (rb_effs_raiseFree _ _ _)
    · rw [os_eq_flood_retry cfg s now env h1 h2 h3 h4 h5 h6 h7 hf]
      exact rf_effs_raiseFree _ _ _


/-- A single raised TypeError writes nothing. -/
theorem countWrites_typeErr : countWrites [Eff.raiseTypeErr] = 0 := rfl

/-- Explicit case enumeration for raw samples. -/
theorem raw_cases (r : Raw) :
    r = Raw.missing ∨ r = Raw.off ∨ r = Raw.on ∨ r = Raw.invalid := by
  cases r <;> simp

/-- filling_level leaves starting_tries unchanged. -/
theorem fl_starting_tries (cfg : Config) (s : St) (now : ℚ) (env : Env) :
    (filling_level cfg s now env).1.starting_tries = s.starting_tries := by
  rcases raw_cases env.floodRaw with hf | hf | hf | hf
  · rw [fl_eq_err cfg s now env (Or.inl hf)]
    simp [fireError_starting_tries, rf_st_starting_tries]
  · rw [fl_eq_off cfg s now env hf]
    simp [rf_st_starting_tries]
  · cases ho : cfg.flooding_overshoot with
    | none =>
        rw [fl_eq_typeerr cfg s now env hf ho]
        simp [rf_st_starting_tries]
    | some ov =>
        by_cases hov : now - (if s.flooded_high_time = 0 then now else s.flooded_high_time) < ov
        · rw [fl_eq_wait cfg s now env ov hf ho hov]
          simp [rf_st_starting_tries]
        · rw [fl_eq_full cfg s now env ov hf ho hov]
          simp [fireFull_starting_tries, rf_st_starting_tries]
  · rw [fl_eq_err cfg s now env (Or.inr hf)]
    simp [fireError_starting_tries, rf_st_starting_tries]

/-- The phase after filling_level: unchanged, error, or draining. -/
theorem fl_phase_shape (cfg : Config) (s : St) (now : ℚ) (env : Env) :
    (filling_level cfg s now env).1.phase = s.phase
    ∨ (filling_level cfg s now env).1.phase = Phase.error
    ∨ (filling_level cfg s now env).1.phase = Phase.draining := by
  rcases raw_cases env.floodRaw with hf | hf | hf | hf
  · rw [fl_eq_err cfg s now env (Or.inl hf)]
    simp [fireError_phase]
  · rw [fl_eq_off cfg s now env hf]
    simp [rf_st_phase, hf]
  · cases ho : cfg.flooding_overshoot with
    | none =>
        rw [fl_eq_typeerr cfg s now env hf ho]
        simp [rf_st_phase, hf]
    | some ov =>
        by_cases hov : now - (if s.flooded_high_time = 0 then now else s.flooded_high_time) < ov
        · rw [fl_eq_wait cfg s now env ov hf ho hov]
          simp [rf_st_phase, hf]
        · rw [fl_eq_full cfg s now env ov hf ho hov]
          simp [fireFull_phase]
  · rw [fl_eq_err cfg s now env (Or.inr hf)]
    simp [fireError_phase]

/-- filling_level writes one statistics batch per error entry. -/
theorem fl_ec (cfg : Config) (s : St) (now : ℚ) (env : Env) :
    (filling_level cfg s now env).1.error_count
      = s.error_count + (countWrites (filling_level cfg s now env).2 : ℚ) := by
  rcases raw_cases env.floodRaw with hf | hf | hf | hf
  · rw [fl_eq_err cfg s now env (Or.inl hf)]
    simp [fireError_error_count, rf_st_error_count, countWrites_append,
      rf_effs_countWrites, fireError_countWrites, hf]
  · rw [fl_eq_off cfg s now env hf]
    simp [rf_st_error_count, rf_effs_countWrites, hf]
  · cases ho : cfg.flooding_overshoot with
    | none =>
        rw [fl_eq_typeerr cfg s now env hf ho]
        simp [rf_st_error_count, countWrites_append, rf_effs_countWrites,
          countWrites_typeErr, hf]
    | some ov =>
        by_cases hov : now - (if s.flooded_high_time = 0 then now else s.flooded_high_time) < ov
        · rw [fl_eq_wait cfg s now env ov hf ho hov]
          simp [rf_st_error_count, rf_effs_countWrites, hf]
        · rw [fl_eq_full cfg s now env ov hf ho hov]
          simp [fireFull_error_count, rf_st_error_count, countWrites_append,
            rf_effs_countWrites, fireFull_countWrites, hf]
  · rw [fl_eq_err cfg s now env (Or.inr hf)]
    simp [fireError_error_count, rf_st_error_count, countWrites_append,
      rf_effs_countWrites, fireError_countWrites, hf]
    push_cast
    ring

/-- Write discipline of filling_level. -/
theorem fl_wbd (cfg : Config) (s : St) (now : ℚ) (env : Env) :
    writesBeforeDeact (filling_level cfg s now env).2 = true := by
  rcases raw_cases env.floodRaw with hf | hf | hf | hf
  · rw [fl_eq_err cfg s now env (Or.inl hf)]
    exact wbd_append _ _ (rf_effs_wbd _ _ _) (fireError_wbd _)
  · rw [fl_eq_off cfg s now env hf]
    exact rf_effs_wbd _ _ _
  · cases ho : cfg.flooding_overshoot with
    | none =>
        rw [fl_eq_typeerr cfg s now env hf ho]
        exact wbd_append _ _ (rf_effs_wbd _ _ _) (wbd_of_no_writes _ rfl)
    | some ov =>
        by_cases hov : now - (if s.flooded_high_time = 0 then now else s.flooded_high_time) < ov
        · rw [fl_eq_wait cfg s now env ov hf ho hov]
          exact rf_effs_wbd _ _ _
        · rw [fl_eq_full cfg s now env ov hf ho hov]
          exact wbd_append _ _ (rf_effs_wbd _ _ _) (fireFull_wbd _ _ _)
  · rw [fl_eq_err cfg s now env (Or.inr hf)]
    exact wbd_append _ _ (rf_effs_wbd _ _ _) (fireError_wbd _)

/-- With the overshoot option present, filling_level raises nothing. -/
theorem fl_raiseFree (cfg : Config) (s : St) (now : ℚ) (env : Env)
    (hone : cfg.flooding_overshoot ≠ none) :
    raiseFree (filling_level cfg s now env).2 = true := by
  rcases raw_cases env.floodRaw with hf | hf | hf | hf
  · rw [fl_eq_err cfg s now env (Or.inl hf)]
    exact raiseFree_append_tt _ _ (rf_effs_raiseFree _ _ _) (fireError_raiseFree _)
  · rw [fl_eq_off cfg s now env hf]
    exact rf_effs_raiseFree _ _ _
  · cases ho : cfg.flooding_overshoot with
    | none => exact absurd ho hone
    | some ov =>
        by_cases hov : now - (if s.flooded_high_time = 0 then now else s.flooded_high_time) < ov
        · rw [fl_eq_wait cfg s now env ov hf ho hov]
          exact rf_effs_raiseFree _ _ _
        · rw [fl_eq_full cfg s now env ov hf ho hov]
          exact raiseFree_append_tt _ _ (rf_effs_raiseFree _ _ _) (fireFull_raiseFree _ _ _)
  · rw [fl_eq_err cfg s now env (Or.inr hf)]
    exact raiseFree_append_tt _ _ (rf_effs_raiseFree _ _ _) (fireError_raiseFree _)

/-- On an off flood sample filling_level emits no valve command. -/
theorem fl_valveEffs_off (cfg : Config) (s : St) (now : ℚ) (env : Env)
    (hf : env.floodRaw = Raw.off) :
    valveEffs (filling_level cfg s now env).2 = [] := by
  rw [fl_eq_off cfg s now env hf]
  exact rf_effs_valveEffs _ _ _

/-- The overshoot debounce of filling_level: full is entered only when
the dwell measured from the latched flooded_high_time has elapsed; the
latch is set exactly at an on reading and persists. -/
theorem fl_debounce (cfg : Config) (s : St) (now : ℚ) (env : Env) (ov : ℚ)
    (ho : cfg.flooding_overshoot = some ov) (hpos : 0 < ov)
    (hnd : s.phase ≠ Phase.draining) :
    ((filling_level cfg s now env).1.phase = Phase.draining →
        s.flooded_high_time ≠ 0 ∧ s.flooded_high_time + ov ≤ now)
    ∧ (s.flooded_high_time = 0 → (filling_level cfg s now env).1.phase ≠ Phase.draining →
        ((filling_level cfg s now env).1.flooded_high_time = 0
          ∨ ((filling_level cfg s now env).1.flooded_high_time = now
              ∧ env.floodRaw = Raw.on)))
    ∧ (s.flooded_high_time ≠ 0 → (filling_level cfg s now env).1.phase ≠ Phase.draining →
        (filling_level cfg s now env).1.flooded_high_time = s.flooded_high_time) := by
  rcases raw_cases env.floodRaw with hf | hf | hf | hf
  · rw [fl_eq_err cfg s now env (Or.inl hf)]
    refine ⟨?_, ?_, ?_⟩ <;>
      simp [fireError_phase, fireError_flooded_high_time, rf_st_flooded_high_time] <;>
      tauto
  · rw [fl_eq_off cfg s now env hf]
    refine ⟨?_, ?_, ?_⟩ <;>
      simp_all [rf_st_phase, rf_st_flooded_high_time, hf]
  · by_cases hov : now - (if s.flooded_high_time = 0 then now else s.flooded_high_time) < ov
    · rw [fl_eq_wait cfg s now env ov hf ho hov]
      by_cases hz : s.flooded_high_time = 0 <;>
        refine ⟨?_, ?_, ?_⟩ <;>
        simp_all [rf_st_phase, hf]
    · rw [fl_eq_full cfg s now env ov hf ho hov]
      by_cases hz : s.flooded_high_time = 0
      · rw [if_pos hz] at hov
        exfalso
        apply hov
        simpa using hpos
      · rw [if_neg hz] at hov
        refine ⟨fun _ => ⟨hz, by linarith [not_lt.mp hov]⟩, ?_, ?_⟩
        · intro h0
          exact absurd h0 hz
        · intro _ hnd2
          exfalso
          exact hnd2 (by simp [fireFull_phase])
  · rw [fl_eq_err cfg s now env (Or.inr hf)]
    refine ⟨?_, ?_, ?_⟩ <;>
      simp [fireError_phase, fireError_flooded_high_time, rf_st_flooded_high_time] <;>
      tauto


/-- on_filling leaves starting_tries unchanged. -/
theorem on_filling_tries (cfg : Config) (s : St) (now : ℚ) (env : Env) :
    (on_filling cfg s now env).1.starting_tries = s.starting_tries := by
  cases hm : cfg.max_flooding_time with
  | none =>
      rw [of_eq_typeerr cfg s now env hm]
  | some mft =>
      by_cases ht : mft < now - s.fill_start_timestamp
      · rw [of_eq_timeout cfg s now env mft hm ht]
        simp [fireError_starting_tries]
      · by_cases hp : env.pumpState = PumpRead.on
        · rw [of_eq_run cfg s now env mft hm ht hp]
          simp [fl_starting_tries, fb_starting_tries, fc_starting_tries]
        · rw [of_eq_pump cfg s now env mft hm ht hp]
          simp [fireError_starting_tries]

/-- The phase after on_filling: unchanged, error, or draining. -/
theorem on_filling_phase_shape (cfg : Config) (s : St) (now : ℚ) (env : Env) :
    (on_filling cfg s now env).1.phase = s.phase
    ∨ (on_filling cfg s now env).1.phase = Phase.error
    ∨ (on_filling cfg s now env).1.phase = Phase.draining := by
  cases hm : cfg.max_flooding_time with
  | none =>
      rw [of_eq_typeerr cfg s now env hm]
      simp
  | some mft =>
      by_cases ht : mft < now - s.fill_start_timestamp
      · rw [of_eq_timeout cfg s now env mft hm ht]
        simp [fireError_phase]
      · by_cases hp : env.pumpState = PumpRead.on
        · rw [of_eq_run cfg s now env mft hm ht hp]
          rcases fl_phase_shape cfg
              (filling_basin cfg
                (filling_cleaning cfg { s with flooding_time := now - s.fill_start_timestamp }).1
                now env).1 now env with h | h | h <;>
            rw [h] <;>
            [skip; simp; simp]
          rw [fb_phase]
          split_ifs <;> simp [fc_phase]
        · rw [of_eq_pump cfg s now env mft hm ht hp]
          simp [fireError_phase]

/-- on_filling never reaches drained. -/
theorem on_filling_not_drained (cfg : Config) (s : St) (now : ℚ) (env : Env)
    (hnd : s.phase ≠ Phase.drained) :
    (on_filling cfg s now env).1.phase ≠ Phase.drained := by
  rcases on_filling_phase_shape cfg s now env with h | h | h <;> rw [h] <;> simp_all

/-- on_filling writes one statistics batch per error entry. -/
theorem on_filling_ec (cfg : Config) (s : St) (now : ℚ) (env : Env) :
    (on_filling cfg s now env).1.error_count
      = s.error_count + (countWrites (on_filling cfg s now env).2 : ℚ) := by
  cases hm : cfg.max_flooding_time with
  | none =>
      rw [of_eq_typeerr cfg s now env hm]
      simp [countWrites_typeErr]
  | some mft =>
      by_cases ht : mft < now - s.fill_start_timestamp
      · rw [of_eq_timeout cfg s now env mft hm ht]
        simp [fireError_error_count, fireError_countWrites]
      · by_cases hp : env.pumpState = PumpRead.on
        · rw [of_eq_run cfg s now env mft hm ht hp]
          rw [fl_ec cfg
            (filling_basin cfg
              (filling_cleaning cfg { s with flooding_time := now - s.fill_start_timestamp }).1
              now env).1 now env]
          simp only [countWrites_append, fb_error_count, fc_error_count, fc_countWrites,
            fb_countWrites, fc_low_water_time]
          split_ifs <;> push_cast <;> ring
        · rw [of_eq_pump cfg s now env mft hm ht hp]
          simp [fireError_error_count, fireError_countWrites]

/-- Write discipline of on_filling. -/
theorem on_filling_wbd (cfg : Config) (s : St) (now : ℚ) (env : Env) :
    writesBeforeDeact (on_filling cfg s now env).2 = true := by
  cases hm : cfg.max_flooding_time with
  | none =>
      rw [of_eq_typeerr cfg s now env hm]
      rfl
  | some mft =>
      by_cases ht : mft < now - s.fill_start_timestamp
      · rw [of_eq_timeout cfg s now env mft hm ht]
        exact fireError_wbd _
      · by_cases hp : env.pumpState = PumpRead.on
        · rw [of_eq_run cfg s now env mft hm ht hp]
          exact wbd_append _ _ (wbd_append _ _ (fc_wbd _ _) (fb_wbd _ _ _ _)) (fl_wbd _ _ _ _)
        · rw [of_eq_pump cfg s now env mft hm ht hp]
          exact fireError_wbd _

/-- With both timing options present, on_filling raises nothing. -/
theorem on_filling_raiseFree (cfg : Config) (s : St) (now : ℚ) (env : Env)
    (hm : cfg.max_flooding_time ≠ none) (ho : cfg.flooding_overshoot ≠ none) :
    raiseFree (on_filling cfg s now env).2 = true := by
  cases hmv : cfg.max_flooding_time with
  | none => exact absurd hmv hm
  | some mft =>
      by_cases ht : mft < now - s.fill_start_timestamp
      · rw [of_eq_timeout cfg s now env mft hmv ht]
        exact fireError_raiseFree _
      · by_cases hp : env.pumpState = PumpRead.on
        · rw [of_eq_run cfg s now env mft hmv ht hp]
          exact raiseFree_append_tt _ _
            (raiseFree_append_tt _ _ (fc_raiseFree _ _) (fb_raiseFree _ _ _ _))
            (fl_raiseFree _ _ _ _ ho)
        · rw [of_eq_pump cfg s now env mft hmv ht hp]
          exact fireError_raiseFree _


/-- The overshoot debounce lifted to on_filling: the intermediate
cleaning and basin blocks leave the latch untouched. -/
theorem on_filling_debounce (cfg : Config) (s : St) (now : ℚ) (env : Env) (ov : ℚ)
    (ho : cfg.flooding_overshoot = some ov) (hpos : 0 < ov)
    (hph : s.phase = Phase.filling) :
    ((on_filling cfg s now env).1.phase = Phase.draining →
        s.flooded_high_time ≠ 0 ∧ s.flooded_high_time + ov ≤ now)
    ∧ (s.flooded_high_time = 0 → (on_filling cfg s now env).1.phase ≠ Phase.draining →
        ((on_filling cfg s now env).1.flooded_high_time = 0
          ∨ ((on_filling cfg s now env).1.flooded_high_time = now
              ∧ env.floodRaw = Raw.on)))
    ∧ (s.flooded_high_time ≠ 0 → (on_filling cfg s now env).1.phase ≠ Phase.draining →
        (on_filling cfg s now env).1.flooded_high_time = s.flooded_high_time) := by
  cases hm : cfg.max_flooding_time with
  | none =>
      rw [of_eq_typeerr cfg s now env hm]
      refine ⟨?_, ?_, ?_⟩ <;> simp_all
  | some mft =>
      by_cases ht : mft < now - s.fill_start_timestamp
      · rw [of_eq_timeout cfg s now env mft hm ht]
        refine ⟨?_, ?_, ?_⟩ <;>
          simp_all [fireError_phase, fireError_flooded_high_time]
      · by_cases hp : env.pumpState = PumpRead.on
        · rw [of_eq_run cfg s now env mft hm ht hp]
          have hu_fht : (filling_basin cfg
              (filling_cleaning cfg { s with flooding_time := now - s.fill_start_timestamp }).1
              now env).1.flooded_high_time = s.flooded_high_time := by
            simp [fb_flooded_high_time, fc_flooded_high_time]
          have hu_nd : (filling_basin cfg
              (filling_cleaning cfg { s with flooding_time := now - s.fill_start_timestamp }).1
              now env).1.phase ≠ Phase.draining := by
            rw [fb_phase]
            split_ifs <;> simp_all [fc_phase]
          have hd := fl_debounce cfg
            (filling_basin cfg
              (filling_cleaning cfg { s with flooding_time := now - s.fill_start_timestamp }).1
              now env).1 now env ov ho hpos hu_nd
          rw [hu_fht] at hd
          exact hd
        · rw [of_eq_pump cfg s now env mft hm ht hp]
          refine ⟨?_, ?_, ?_⟩ <;>
            simp_all [fireError_phase, fireError_flooded_high_time]

/-- The valve commands of an on_filling tick with the flood sensor
reading off are exactly those of the cleaning block. -/
theorem on_filling_valves (cfg : Config) (s : St) (now : ℚ) (env : Env) (mft : ℚ)
    (hm : cfg.max_flooding_time = some mft) (ht : ¬ mft < now - s.fill_start_timestamp)
    (hp : env.pumpState = PumpRead.on) (hf : env.floodRaw = Raw.off) :
    valveEffs (on_filling cfg s now env).2
      = (filling_cleaning cfg { s with flooding_time := now - s.fill_start_timestamp }).2
    ∧ (on_filling cfg s now env).1.cleaning_valves
      = (filling_cleaning cfg { s with flooding_time := now - s.fill_start_timestamp }).1.cleaning_valves := by
  rw [of_eq_run cfg s now env mft hm ht hp]
  constructor
  · rw [valveEffs_append, valveEffs_append, fc_valveEffs, fb_valveEffs,
      fl_valveEffs_off _ _ _ _ hf]
    simp
  · rw [fl_eq_off _ _ _ _ hf]
    simp [rf_st_cleaning_valves, fb_cleaning_valves]

/-- One on_filling tick in which the flood read returns an invalid
value while the basin read does not itself fire the error transition:
the error trigger fires twice, once inside read_flood_waterlevel and
once in the handler. -/
theorem on_filling_invalid_double (cfg : Config) (s : St) (now : ℚ) (env : Env) (mft : ℚ)
    (hm : cfg.max_flooding_time = some mft) (ht : ¬ mft < now - s.fill_start_timestamp)
    (hp : env.pumpState = PumpRead.on) (hf : env.floodRaw = Raw.invalid)
    (hbs : cfg.measurement_min_waterlevel_measurement_id = none
        ∨ s.low_water_time ≠ 0 ∨ env.basinRaw ≠ Raw.invalid) :
    (on_filling cfg s now env).1.error_count = s.error_count + 2
    ∧ countWrites (on_filling cfg s now env).2 = 2
    ∧ (on_filling cfg s now env).1.phase = Phase.error := by
  rw [of_eq_run cfg s now env mft hm ht hp]
  have hbcond : ¬ ((cfg.measurement_min_waterlevel_measurement_id ≠ none
      ∧ (filling_cleaning cfg { s with flooding_time := now - s.fill_start_timestamp }).1.low_water_time = 0)
      ∧ env.basinRaw = Raw.invalid) := by
    rw [fc_low_water_time]
    rcases hbs with h | h | h <;> simp_all
  refine ⟨?_, ?_, ?_⟩
  · rw [fl_eq_err _ _ _ _ (Or.inr hf)]
    simp only [fireError_error_count, rf_st_error_count, hf, if_pos rfl, fb_error_count,
      if_neg hbcond, fc_error_count, if_true]
    ring
  · rw [countWrites_append, countWrites_append, fc_countWrites, fb_countWrites,
      if_neg hbcond]
    rw [fl_eq_err _ _ _ _ (Or.inr hf)]
    simp [countWrites_append, rf_effs_countWrites, fireError_countWrites, hf]
  · rw [fl_eq_err _ _ _ _ (Or.inr hf)]
    simp [fireError_phase]


/-- on_draining leaves starting_tries unchanged. -/
theorem od_tries (cfg : Config) (s : St) (now : ℚ) (env : Env) :
    (on_draining cfg s now env).1.starting_tries = s.starting_tries := by
  by_cases ht : cfg.max_draining_time < now - s.draining_start_timestamp
  · rw [od_eq_timeout cfg s now env ht]
    simp [fireError_starting_tries]
  · rcases raw_cases env.floodRaw with hf | hf | hf | hf
    · rw [od_eq_err cfg s now env ht (Or.inl hf)]
      simp [fireError_starting_tries, rf_st_starting_tries]
    · rw [od_eq_drained cfg s now env ht hf]
      simp [fireDrained_starting_tries, rf_st_starting_tries]
    · rw [od_eq_on cfg s now env ht hf]
      simp [rf_st_starting_tries]
    · rw [od_eq_err cfg s now env ht (Or.inr hf)]
      simp [fireError_starting_tries, rf_st_starting_tries]

/-- The phase after on_draining: unchanged, error, or drained. -/
theorem od_phase_shape (cfg : Config) (s : St) (now : ℚ) (env : Env) :
    (on_draining cfg s now env).1.phase = s.phase
    ∨ (on_draining cfg s now env).1.phase = Phase.error
    ∨ (on_draining cfg s now env).1.phase = Phase.drained := by
  by_cases ht : cfg.max_draining_time < now - s.draining_start_timestamp
  · rw [od_eq_timeout cfg s now env ht]
    simp [fireError_phase]
  · rcases raw_cases env.floodRaw with hf | hf | hf | hf
    · rw [od_eq_err cfg s now env ht (Or.inl hf)]
      simp [fireError_phase]
    · rw [od_eq_drained cfg s now env ht hf]
      simp [fireDrained_phase]
    · rw [od_eq_on cfg s now env ht hf]
      simp [rf_st_phase, hf]
    · rw [od_eq_err cfg s now env ht (Or.inr hf)]
      simp [fireError_phase]

/-- on_draining writes one statistics batch per terminal entry: one per
error entry, and exactly one on the drained entry. -/
theorem od_stats (cfg : Config) (s : St) (now : ℚ) (env : Env)
    (hnd : s.phase ≠ Phase.drained) :
    (countWrites (on_draining cfg s now env).2 : ℚ)
      = ((on_draining cfg s now env).1.error_count - s.error_count)
        + (if (on_draining cfg s now env).1.phase = Phase.drained then 1 else 0)
    ∧ writesBeforeDeact (on_draining cfg s now env).2 = true
    ∧ raiseFree (on_draining cfg s now env).2 = true := by
  by_cases ht : cfg.max_draining_time < now - s.draining_start_timestamp
  · rw [od_eq_timeout cfg s now env ht]
    refine ⟨?_, fireError_wbd _, fireError_raiseFree _⟩
    simp [fireError_error_count, fireError_countWrites, fireError_phase]
  · rcases raw_cases env.floodRaw with hf | hf | hf | hf
    · rw [od_eq_err cfg s now env ht (Or.inl hf)]
      refine ⟨?_, wbd_append _ _ (rf_effs_wbd _ _ _) (fireError_wbd _),
        raiseFree_append_tt _ _ (rf_effs_raiseFree _ _ _) (fireError_raiseFree _)⟩
      simp [fireError_error_count, fireError_countWrites, fireError_phase,
        rf_st_error_count, rf_effs_countWrites, countWrites_append, hf]
    · rw [od_eq_drained cfg s now env ht hf]
      refine ⟨?_, wbd_append _ _ (rf_effs_wbd _ _ _) (fireDrained_wbd _),
        raiseFree_append_tt _ _ (rf_effs_raiseFree _ _ _) (fireDrained_raiseFree _)⟩
      simp [fireDrained_error_count, fireDrained_countWrites, fireDrained_phase,
        rf_st_error_count, rf_effs_countWrites, countWrites_append, hf]
    · rw [od_eq_on cfg s now env ht hf]
      refine ⟨?_, rf_effs_wbd _ _ _, rf_effs_raiseFree _ _ _⟩
      rw [rf_st_phase]
      simp [rf_st_error_count, rf_effs_countWrites, hf, hnd]
    · rw [od_eq_err cfg s now env ht (Or.inr hf)]
      refine ⟨?_, wbd_append _ _ (rf_effs_wbd _ _ _) (fireError_wbd _),
        raiseFree_append_tt _ _ (rf_effs_raiseFree _ _ _) (fireError_raiseFree _)⟩
      simp [fireError_error_count, fireError_countWrites, fireError_phase,
        rf_st_error_count, rf_effs_countWrites, countWrites_append, hf]
      push_cast
      ring


/-- fireDrained leaves timer_loop unchanged. -/
theorem fireDrained_timer_loop (s : St) : (fireDrained s).1.timer_loop = s.timer_loop := by
  simp [fireDrained, on_drained]

/-- filling_level leaves timer_loop unchanged. -/
theorem fl_timer_loop (cfg : Config) (s : St) (now : ℚ) (env : Env) :
    (filling_level cfg s now env).1.timer_loop = s.timer_loop := by
  rcases raw_cases env.floodRaw with hf | hf | hf | hf
  · rw [fl_eq_err cfg s now env (Or.inl hf)]
    simp [fireError_timer_loop, rf_st_timer_loop]
  · rw [fl_eq_off cfg s now env hf]
    simp [rf_st_timer_loop]
  · cases ho : cfg.flooding_overshoot with
    | none =>
        rw [fl_eq_typeerr cfg s now env hf ho]
        simp [rf_st_timer_loop]
    | some ov =>
        by_cases hov : now - (if s.flooded_high_time = 0 then now else s.flooded_high_time) < ov
        · rw [fl_eq_wait cfg s now env ov hf ho hov]
          simp [rf_st_timer_loop]
        · rw [fl_eq_full cfg s now env ov hf ho hov]
          simp [fireFull_timer_loop, rf_st_timer_loop]
  · rw [fl_eq_err cfg s now env (Or.inr hf)]
    simp [fireError_timer_loop, rf_st_timer_loop]

/-- on_starting leaves timer_loop unchanged. -/
theorem on_starting_timer_loop (cfg : Config) (s : St) (now : ℚ) (env : Env) :
    (on_starting cfg s now env).1.timer_loop = s.timer_loop := by
  unfold on_starting
  simp only [apply_ite (@Prod.fst St (List Eff)), apply_ite St.timer_loop,
    fireError_timer_loop, rf_st_timer_loop, rb_st_timer_loop,
    proceed_timer_loop, ite_self]

/-- on_filling leaves timer_loop unchanged. -/
theorem on_filling_timer_loop (cfg : Config) (s : St) (now : ℚ) (env : Env) :
    (on_filling cfg s now env).1.timer_loop = s.timer_loop := by
  cases hm : cfg.max_flooding_time with
  | none => rw [of_eq_typeerr cfg s now env hm]
  | some mft =>
      by_cases ht : mft < now - s.fill_start_timestamp
      · rw [of_eq_timeout cfg s now env mft hm ht]
        simp [fireError_timer_loop]
      · by_cases hp : env.pumpState = PumpRead.on
        · rw [of_eq_run cfg s now env mft hm ht hp]
          simp [fl_timer_loop, fb_timer_loop, fc_timer_loop]
        · rw [of_eq_pump cfg s now env mft hm ht hp]
          simp [fireError_timer_loop]

/-- on_draining leaves timer_loop unchanged. -/
theorem od_timer_loop (cfg : Config) (s : St) (now : ℚ) (env : Env) :
    (on_draining cfg s now env).1.timer_loop = s.timer_loop := by
  by_cases ht : cfg.max_draining_time < now - s.draining_start_timestamp
  · rw [od_eq_timeout cfg s now env ht]
    simp [fireError_timer_loop]
  · rcases raw_cases env.floodRaw with hf | hf | hf | hf
    · rw [od_eq_err cfg s now env ht (Or.inl hf)]
      simp [fireError_timer_loop, rf_st_timer_loop]
    · rw [od_eq_drained cfg s now env ht hf]
      simp [fireDrained_timer_loop, rf_st_timer_loop]
    · rw [od_eq_on cfg s now env ht hf]
      simp [rf_st_timer_loop]
    · rw [od_eq_err cfg s now env ht (Or.inr hf)]
      simp [fireError_timer_loop, rf_st_timer_loop]

/-- Explicit case enumeration for phases. -/
theorem phase_cases (p : Phase) :
    p = Phase.idle ∨ p = Phase.starting ∨ p = Phase.filling ∨ p = Phase.full
    ∨ p = Phase.draining ∨ p = Phase.drained ∨ p = Phase.error ∨ p = Phase.shutdown := by
  cases p <;> simp

/-- A due tick always sets the timer to its caught-up value, whatever
the phase dispatches. -/
theorem loop_timer (cfg : Config) (s : St) (now : ℚ) (env : Env)
    (h : s.timer_loop ≤ now) :
    (loop cfg s now env).1.timer_loop = advanceTimer s.timer_loop cfg.period now := by
  rcases phase_cases s.phase with hph | hph | hph | hph | hph | hph | hph | hph
  · rw [loop_due_idle cfg s now env hph h]
  · rw [loop_due_starting cfg s now env hph h]
    rw [on_starting_timer_loop]
  · rw [loop_due_filling cfg s now env hph h]
    rw [on_filling_timer_loop]
  · rw [loop_due_nodispatch cfg s now env (Or.inl hph) h]
  · rw [loop_due_draining cfg s now env hph h]
    rw [od_timer_loop]
  · rw [loop_due_nodispatch cfg s now env (Or.inr (Or.inl hph)) h]
  · rw [loop_due_error cfg s now env hph h]
  · rw [loop_due_nodispatch cfg s now env (Or.inr (Or.inr hph)) h]

/-- The while loop of loop() adds the least whole number of periods
that lifts the timer to at least the current time: the result is on the
period grid, at least now, and less than one period past now. -/
theorem advanceTimer_spec (t p n : ℚ) (hp : 0 < p) (h : t ≤ n) :
    (∃ k : ℕ, advanceTimer t p n = t + k * p)
    ∧ n ≤ advanceTimer t p n ∧ advanceTimer t p n < n + p := by
  unfold advanceTimer
  by_cases hlt : t < n
  · rw [if_pos hlt]
    have hmpos : (0 : ℤ) < ⌈(n - t) / p⌉ := Int.ceil_pos.mpr (div_pos (by linarith) hp)
    have hle : (n - t) / p ≤ (⌈(n - t) / p⌉ : ℚ) := Int.le_ceil _
    have hlt1 : ((⌈(n - t) / p⌉ : ℤ) : ℚ) < (n - t) / p + 1 := by
      exact_mod_cast Int.ceil_lt_add_one ((n - t) / p)
    have hdiv : p * ((n - t) / p) = n - t := by
      field_simp
    refine ⟨⟨(⌈(n - t) / p⌉).toNat, ?_⟩, ?_, ?_⟩
    · have hcast : (((⌈(n - t) / p⌉).toNat : ℤ) : ℚ) = ((⌈(n - t) / p⌉ : ℤ) : ℚ) := by
        exact_mod_cast congrArg (fun z : ℤ => (z : ℚ))
          (Int.toNat_of_nonneg (le_of_lt hmpos))
      push_cast at hcast ⊢
      rw [hcast]
      ring
    · have := mul_le_mul_of_nonneg_left hle (le_of_lt hp)
      rw [hdiv] at this
      linarith
    · have := mul_lt_mul_of_pos_left hlt1 hp
      rw [mul_add, hdiv] at this
      linarith
  · rw [if_neg hlt]
    have ht : t = n := le_antisymm h (not_lt.mp hlt)
    exact ⟨⟨0, by simp⟩, by linarith, by linarith⟩


/-- C9 amended: a tick before the scheduled time is a strict no-op;
a due tick advances the next-tick timestamp by a whole number of
periods onto the least grid point that is at least (not strictly
greater than) the current time, collapsing any backlog into one
catch-up; one state-machine step is dispatched for the phases idle,
starting, filling, draining and error, and no step is dispatched in
full, drained or shutdown. -/
theorem loop_timer_catchup (cfg : Config) (s : St) (now : ℚ) (env : Env)
    (hp : 0 < cfg.period) :
    (now < s.timer_loop → loop cfg s now env = (s, []))
    ∧ (s.timer_loop ≤ now →
        (∃ k : ℕ, (loop cfg s now env).1.timer_loop = s.timer_loop + k * cfg.period)
        ∧ now ≤ (loop cfg s now env).1.timer_loop
        ∧ (loop cfg s now env).1.timer_loop < now + cfg.period
        ∧ (s.phase = Phase.starting →
            loop cfg s now env = on_starting cfg
              { s with timer_loop := advanceTimer s.timer_loop cfg.period now } now env)
        ∧ (s.phase = Phase.filling →
            loop cfg s now env = on_filling cfg
              { s with timer_loop := advanceTimer s.timer_loop cfg.period now } now env)
        ∧ (s.phase = Phase.draining →
            loop cfg s now env = on_draining cfg
              { s with timer_loop := advanceTimer s.timer_loop cfg.period now } now env)
        ∧ (s.phase = Phase.idle →
            loop cfg s now env = ({ s with timer_loop := advanceTimer s.timer_loop cfg.period now,
                                           phase := Phase.starting }, []))
        ∧ (s.phase = Phase.error →
            loop cfg s now env = ({ s with timer_loop := advanceTimer s.timer_loop cfg.period now },
              [Eff.deactivate, Eff.raiseInvalidErrorState]))
        ∧ (s.phase = Phase.full ∨ s.phase = Phase.drained ∨ s.phase = Phase.shutdown →
            loop cfg s now env
              = ({ s with timer_loop := advanceTimer s.timer_loop cfg.period now }, []))) := by
  refine ⟨fun h => loop_not_due cfg s now env h, fun hdue => ?_⟩
  obtain ⟨⟨k, hk⟩, h2, h3⟩ := advanceTimer_spec s.timer_loop cfg.period now hp hdue
  rw [loop_timer cfg s now env hdue]
  exact ⟨⟨k, hk⟩, h2, h3,
    fun hph => loop_due_starting cfg s now env hph hdue,
    fun hph => loop_due_filling cfg s now env hph hdue,
    fun hph => loop_due_draining cfg s now env hph hdue,
    fun hph => loop_due_idle cfg s now env hph hdue,
    fun hph => loop_due_error cfg s now env hph hdue,
    fun hph => loop_due_nodispatch cfg s now env hph hdue⟩

/-- Witness for the amended C9 theorem: period 1, timer 0, tick at
time 7/2 from the starting phase. -/
theorem loop_timer_catchup_witness :
    (7/2 < sampleStarting.timer_loop → loop sampleCfg sampleStarting (7/2) sampleEnv = (sampleStarting, []))
    ∧ (sampleStarting.timer_loop ≤ 7/2 →
        (∃ k : ℕ, (loop sampleCfg sampleStarting (7/2) sampleEnv).1.timer_loop
            = sampleStarting.timer_loop + k * sampleCfg.period)
        ∧ (7/2 : ℚ) ≤ (loop sampleCfg sampleStarting (7/2) sampleEnv).1.timer_loop
        ∧ (loop sampleCfg sampleStarting (7/2) sampleEnv).1.timer_loop < 7/2 + sampleCfg.period
        ∧ (sampleStarting.phase = Phase.starting →
            loop sampleCfg sampleStarting (7/2) sampleEnv = on_starting sampleCfg
              { sampleStarting with
                timer_loop := advanceTimer sampleStarting.timer_loop sampleCfg.period (7/2) } (7/2) sampleEnv)
        ∧ (sampleStarting.phase = Phase.filling →
            loop sampleCfg sampleStarting (7/2) sampleEnv = on_filling sampleCfg
              { sampleStarting with
                timer_loop := advanceTimer sampleStarting.timer_loop sampleCfg.period (7/2) } (7/2) sampleEnv)
        ∧ (sampleStarting.phase = Phase.draining →
            loop sampleCfg sampleStarting (7/2) sampleEnv = on_draining sampleCfg
              { sampleStarting with
                timer_loop := advanceTimer sampleStarting.timer_loop sampleCfg.period (7/2) } (7/2) sampleEnv)
        ∧ (sampleStarting.phase = Phase.idle →
            loop sampleCfg sampleStarting (7/2) sampleEnv
              = ({ sampleStarting with
                    timer_loop := advanceTimer sampleStarting.timer_loop sampleCfg.period (7/2),
                    phase := Phase.starting }, []))
        ∧ (sampleStarting.phase = Phase.error →
            loop sampleCfg sampleStarting (7/2) sampleEnv
              = ({ sampleStarting with
                    timer_loop := advanceTimer sampleStarting.timer_loop sampleCfg.period (7/2) },
                 [Eff.deactivate, Eff.raiseInvalidErrorState]))
        ∧ (sampleStarting.phase = Phase.full ∨ sampleStarting.phase = Phase.drained
              ∨ sampleStarting.phase = Phase.shutdown →
            loop sampleCfg sampleStarting (7/2) sampleEnv
              = ({ sampleStarting with
                    timer_loop := advanceTimer sampleStarting.timer_loop sampleCfg.period (7/2) }, []))) :=
  loop_timer_catchup sampleCfg sampleStarting (7/2) sampleEnv (by norm_num [sampleCfg])

/-- C2 amended: in the starting phase with every startup check passing
and a fresh flood reading of off, a configured minimum-basin-level
source gates the transition the opposite way from the claim: the
controller proceeds to turn on the pump and enter filling exactly when
the basin sensor reads On; a reading of Off keeps it in starting to
retry on the next tick, and an Unavailable reading also holds it in
starting. -/
theorem starting_basin_gate (cfg : Config) (s : St) (now : ℚ) (env : Env)
    (hph : s.phase = Phase.starting) (hdue : s.timer_loop ≤ now)
    (h1 : ¬ 3 < next_tries s)
    (h2 : cfg.max_flooding_time ≠ none) (h3 : cfg.flooding_overshoot ≠ none)
    (h4 : cfg.measurement_flood_waterlevel_device_id ≠ none)
    (h5 : cfg.measurement_flood_waterlevel_measurement_id ≠ none)
    (h6 : cfg.output_waterpump_channel ≠ none)
    (h7 : cfg.flood_device_resolvable = true)
    (hmin : cfg.measurement_min_waterlevel_measurement_id ≠ none)
    (hres : cfg.min_device_resolvable = true)
    (hfl : env.floodRaw = Raw.off) :
    ((loop cfg s now env).1.phase = Phase.filling ↔ env.basinRaw = Raw.on)
    ∧ (env.basinRaw = Raw.off → (loop cfg s now env).1.phase = Phase.starting)
    ∧ (env.basinRaw = Raw.missing → (loop cfg s now env).1.phase = Phase.starting) := by
  rw [loop_due_starting cfg s now env hph hdue]
  rcases raw_cases env.basinRaw with hb | hb | hb | hb
  · rw [os_eq_basin_hold cfg { s with timer_loop := advanceTimer s.timer_loop cfg.period now }
      now env h1 h2 h3 h4 h5 h6 h7 hfl hmin hres (by simp [hb])]
    simp [rb_st_phase, rf_st_phase, hb, hfl, hph]
  · rw [os_eq_basin_hold cfg { s with timer_loop := advanceTimer s.timer_loop cfg.period now }
      now env h1 h2 h3 h4 h5 h6 h7 hfl hmin hres (by simp [hb])]
    simp [rb_st_phase, rf_st_phase, hb, hfl, hph]
  · rw [os_eq_basin_on cfg { s with timer_loop := advanceTimer s.timer_loop cfg.period now }
      now env h1 h2 h3 h4 h5 h6 h7 hfl hmin hres hb]
    simp [proceed_phase, hb]
  · rw [os_eq_basin_hold cfg { s with timer_loop := advanceTimer s.timer_loop cfg.period now }
      now env h1 h2 h3 h4 h5 h6 h7 hfl hmin hres (by simp [hb])]
    simp [rb_st_phase, rf_st_phase, hb, hfl]

/-- Witness for the amended C2 theorem: the sample configuration at
time 0, basin reading on. -/
theorem starting_basin_gate_witness :
    ((loop sampleCfg sampleStarting 0 sampleEnv).1.phase = Phase.filling
        ↔ sampleEnv.basinRaw = Raw.on)
    ∧ (sampleEnv.basinRaw = Raw.off →
        (loop sampleCfg sampleStarting 0 sampleEnv).1.phase = Phase.starting)
    ∧ (sampleEnv.basinRaw = Raw.missing →
        (loop sampleCfg sampleStarting 0 sampleEnv).1.phase = Phase.starting) :=
  starting_basin_gate sampleCfg sampleStarting 0 sampleEnv (by decide) (by decide)
    (by decide) (by decide) (by decide) (by decide) (by decide) (by decide)
    (by decide) (by decide) (by decide) (by decide)

/-- C3: once the flood-level sensor first reads On during a filling
tick, the controller does not move on to draining (the observable step
toward full) until flooding_overshoot seconds have elapsed since that
first reading: entering draining from filling requires the latched
flooded_high_time to be set and flooded_high_time + overshoot to have
passed; the latch is set exactly at the time of an On-reading filling
tick and persists unchanged while the controller stays in filling. -/
theorem filling_overshoot_debounce (cfg : Config) (s : St) (now : ℚ) (env : Env) (ov : ℚ)
    (ho : cfg.flooding_overshoot = some ov) (hpos : 0 < ov)
    (hph : s.phase = Phase.filling) (hdue : s.timer_loop ≤ now) :
    ((loop cfg s now env).1.phase = Phase.draining →
        s.flooded_high_time ≠ 0 ∧ s.flooded_high_time + ov ≤ now)
    ∧ (s.flooded_high_time = 0 → (loop cfg s now env).1.phase = Phase.filling →
        ((loop cfg s now env).1.flooded_high_time = 0
          ∨ ((loop cfg s now env).1.flooded_high_time = now ∧ env.floodRaw = Raw.on)))
    ∧ (s.flooded_high_time ≠ 0 → (loop cfg s now env).1.phase = Phase.filling →
        (loop cfg s now env).1.flooded_high_time = s.flooded_high_time) := by
  rw [loop_due_filling cfg s now env hph hdue]
  have h := on_filling_debounce cfg
    { s with timer_loop := advanceTimer s.timer_loop cfg.period now } now env ov ho hpos hph
  exact ⟨h.1,
    fun hz hfil => h.2.1 hz (by rw [hfil]; simp),
    fun hz hfil => h.2.2 hz (by rw [hfil]; simp)⟩

/-- Witness for the C3 theorem: overshoot 5, a filling state whose
latch was set at time 1, inspected at time 2. -/
theorem filling_overshoot_debounce_witness :
    ((loop sampleCfg
          { initSt 0 0 0 with phase := Phase.filling, flooded_high_time := 1 }
          2 sampleEnv).1.phase = Phase.draining →
        St.flooded_high_time
            { initSt 0 0 0 with phase := Phase.filling, flooded_high_time := 1 } ≠ 0
          ∧ St.flooded_high_time
              { initSt 0 0 0 with phase := Phase.filling, flooded_high_time := 1 } + 5 ≤ 2)
    ∧ (St.flooded_high_time
          { initSt 0 0 0 with phase := Phase.filling, flooded_high_time := 1 } = 0 →
        (loop sampleCfg
            { initSt 0 0 0 with phase := Phase.filling, flooded_high_time := 1 }
            2 sampleEnv).1.phase = Phase.filling →
        ((loop sampleCfg
              { initSt 0 0 0 with phase := Phase.filling, flooded_high_time := 1 }
              2 sampleEnv).1.flooded_high_time = 0
          ∨ ((loop sampleCfg
                { initSt 0 0 0 with phase := Phase.filling, flooded_high_time := 1 }
                2 sampleEnv).1.flooded_high_time = 2
              ∧ sampleEnv.floodRaw = Raw.on)))
    ∧ (St.flooded_high_time
          { initSt 0 0 0 with phase := Phase.filling, flooded_high_time := 1 } ≠ 0 →
        (loop sampleCfg
            { initSt 0 0 0 with phase := Phase.filling, flooded_high_time := 1 }
            2 sampleEnv).1.phase = Phase.filling →
        (loop sampleCfg
            { initSt 0 0 0 with phase := Phase.filling, flooded_high_time := 1 }
            2 sampleEnv).1.flooded_high_time
          = St.flooded_high_time
              { initSt 0 0 0 with phase := Phase.filling, flooded_high_time := 1 }) :=
  filling_overshoot_debounce sampleCfg
    { initSt 0 0 0 with phase := Phase.filling, flooded_high_time := 1 } 2 sampleEnv 5
    (by decide) (by decide) (by decide) (by decide)

/-- C6 amended: a tick that runs while the controller is already in the
error phase requests controller deactivation and then raises the
invariant-violation exception to the host, but it does NOT force any
outputs off (the emitted effect list is exactly the deactivation
request followed by the raise, with no output commands); and with the
two timing options configured, no tick dispatched from any non-error
phase raises an uncaught exception. -/
theorem error_tick_deactivates_and_raises (cfg : Config) (s : St) (now : ℚ) (env : Env) :
    (s.phase = Phase.error → s.timer_loop ≤ now →
        loop cfg s now env
          = ({ s with timer_loop := advanceTimer s.timer_loop cfg.period now },
             [Eff.deactivate, Eff.raiseInvalidErrorState]))
    ∧ (s.phase ≠ Phase.error → cfg.max_flooding_time ≠ none →
        cfg.flooding_overshoot ≠ none →
        raiseFree (loop cfg s now env).2 = true) := by
  constructor
  · intro hph hdue
    exact loop_due_error cfg s now env hph hdue
  · intro hne hm ho
    by_cases hdue : now < s.timer_loop
    · rw [loop_not_due cfg s now env hdue]
      rfl
    · have hdue' : s.timer_loop ≤ now := not_lt.1 hdue
      rcases phase_cases s.phase with hph | hph | hph | hph | hph | hph | hph | hph
      · rw [loop_due_idle cfg s now env hph hdue']
        rfl
      · rw [loop_due_starting cfg s now env hph hdue']
        exact on_starting_raiseFree cfg _ now env
      · rw [loop_due_filling cfg s now env hph hdue']
        exact on_filling_raiseFree cfg _ now env hm ho
      · rw [loop_due_nodispatch cfg s now env (Or.inl hph) hdue']
        rfl
      · rw [loop_due_draining cfg s now env hph hdue']
        exact (od_stats cfg _ now env (by simp [hph])).2.2
      · rw [loop_due_nodispatch cfg s now env (Or.inr (Or.inl hph)) hdue']
        rfl
      · exact absurd hph hne
      · rw [loop_due_nodispatch cfg s now env (Or.inr (Or.inr hph)) hdue']
        rfl

/-- Witness for the amended C6 theorem: an error-phase tick at time 0
emits exactly the deactivation request and the raise, and a fresh idle
tick raises nothing. -/
theorem error_tick_deactivates_and_raises_witness :
    (loop sampleCfg { initSt 0 0 0 with phase := Phase.error } 0 sampleEnv).2
        = [Eff.deactivate, Eff.raiseInvalidErrorState]
    ∧ raiseFree (loop sampleCfg (initSt 0 0 0) 0 sampleEnv).2 = true :=
  ⟨by rw [(error_tick_deactivates_and_raises sampleCfg
        { initSt 0 0 0 with phase := Phase.error } 0 sampleEnv).1 (by decide) (by decide)],
   (error_tick_deactivates_and_raises sampleCfg (initSt 0 0 0) 0 sampleEnv).2
     (by decide) (by decide) (by decide)⟩

/-- C10 amended: on a filling tick that is not timed out, with the pump
reporting on and the flood sensor returning a raw value that maps to
neither On nor Off, the wildcard error transition fires twice in that
single tick (once inside the sensor-read helper and once in the filling
handler), so the error counter increases by exactly 2 and statistics
are written exactly twice - provided the basin read in the same tick
does not itself also return such a value while the basin block is
active (in that case a third firing occurs, refuting the claim's
universal form). -/
theorem invalid_flood_filling_double_error (cfg : Config) (s : St) (now : ℚ) (env : Env) (mft : ℚ)
    (hph : s.phase = Phase.filling) (hdue : s.timer_loop ≤ now)
    (hm : cfg.max_flooding_time = some mft)
    (ht : ¬ mft < now - s.fill_start_timestamp)
    (hp : env.pumpState = PumpRead.on)
    (hf : env.floodRaw = Raw.invalid)
    (hbs : cfg.measurement_min_waterlevel_measurement_id = none
        ∨ s.low_water_time ≠ 0 ∨ env.basinRaw ≠ Raw.invalid) :
    (loop cfg s now env).1.error_count = s.error_count + 2
    ∧ countWrites (loop cfg s now env).2 = 2
    ∧ (loop cfg s now env).1.phase = Phase.error := by
  rw [loop_due_filling cfg s now env hph hdue]
  exact on_filling_invalid_double cfg
    { s with timer_loop := advanceTimer s.timer_loop cfg.period now } now env mft hm ht hp hf hbs

/-- Witness for the amended C10 theorem: a fresh filling state at time
0 with an invalid flood reading and a valid basin reading. -/
theorem invalid_flood_filling_double_error_witness :
    (loop sampleCfg { initSt 0 0 0 with phase := Phase.filling } 0
        { floodRaw := Raw.invalid, basinRaw := Raw.on, pumpState := PumpRead.on }).1.error_count
      = St.error_count { initSt 0 0 0 with phase := Phase.filling } + 2
    ∧ countWrites (loop sampleCfg { initSt 0 0 0 with phase := Phase.filling } 0
        { floodRaw := Raw.invalid, basinRaw := Raw.on, pumpState := PumpRead.on }).2 = 2
    ∧ (loop sampleCfg { initSt 0 0 0 with phase := Phase.filling } 0
        { floodRaw := Raw.invalid, basinRaw := Raw.on, pumpState := PumpRead.on }).1.phase
      = Phase.error :=
  invalid_flood_filling_double_error sampleCfg { initSt 0 0 0 with phase := Phase.filling } 0
    { floodRaw := Raw.invalid, basinRaw := Raw.on, pumpState := PumpRead.on } 110
    (by decide) (by decide) (by decide) (by norm_num [initSt])
    (by decide) (by decide) (Or.inr (Or.inr (by decide)))

/-- One non-timed-out filling tick with the pump on and the flood level
off, split by the cleaning counter: inside the window the single valve
command selected by the pre-incremented counter mod 4 is emitted and
the counter advances; past the window both configured valves are
commanded on and the counter is zeroed; with the counter at 0 no valve
command is emitted. -/
theorem on_filling_cleaning_cases (cfg : Config) (s : St) (now : ℚ) (env : Env) (mft : ℚ)
    (hm : cfg.max_flooding_time = some mft) (ht : ¬ mft < now - s.fill_start_timestamp)
    (hp : env.pumpState = PumpRead.on) (hf : env.floodRaw = Raw.off) :
    (1 ≤ s.cleaning_valves → now - s.fill_start_timestamp < cfg.valve_cleaning_time →
        valveEffs (on_filling cfg s now env).2
          = (if (s.cleaning_valves + 1) % 4 = 0 then
              (if cfg.output_valve1_channel.isSome then [Eff.outputOn Dev.valve1 cfg.output_max_time] else [])
            else if (s.cleaning_valves + 1) % 4 = 1 then
              (if cfg.output_valve1_channel.isSome then [Eff.outputOff Dev.valve1] else [])
            else if (s.cleaning_valves + 1) % 4 = 2 then
              (if cfg.output_valve2_channel.isSome then [Eff.outputOn Dev.valve2 cfg.output_max_time] else [])
            else
              (if cfg.output_valve2_channel.isSome then [Eff.outputOff Dev.valve2] else []))
        ∧ (on_filling cfg s now env).1.cleaning_valves = s.cleaning_valves + 1)
    ∧ (1 ≤ s.cleaning_valves → ¬ now - s.fill_start_timestamp < cfg.valve_cleaning_time →
        valveEffs (on_filling cfg s now env).2
          = (if cfg.output_valve1_channel.isSome then [Eff.outputOn Dev.valve1 cfg.output_max_time] else [])
              ++ (if cfg.output_valve2_channel.isSome then [Eff.outputOn Dev.valve2 cfg.output_max_time] else [])
        ∧ (on_filling cfg s now env).1.cleaning_valves = 0)
    ∧ (¬ 1 ≤ s.cleaning_valves →
        valveEffs (on_filling cfg s now env).2 = []
        ∧ (on_filling cfg s now env).1.cleaning_valves = s.cleaning_valves) := by
  have hv := on_filling_valves cfg s now env mft hm ht hp hf
  refine ⟨fun h1 h2 => ⟨?_, ?_⟩, fun h1 h2 => ⟨?_, ?_⟩, fun h1 => ⟨?_, ?_⟩⟩
  · rw [hv.1]
    rw [fc_effs_inside cfg { s with flooding_time := now - s.fill_start_timestamp }
      (by simpa using h1) (by simpa using h2)]
  · rw [hv.2, fc_cleaning_valves]
    simp [h1, h2]
  · rw [hv.1]
    rw [(fc_effs_past cfg { s with flooding_time := now - s.fill_start_timestamp }
      (by simpa using h1) (by simpa using h2)).2]
  · rw [hv.2, fc_cleaning_valves]
    simp [h1, h2]
  · rw [hv.1]
    rw [fc_effs_idle cfg { s with flooding_time := now - s.fill_start_timestamp }
      (by simpa using h1)]
  · rw [hv.2, fc_cleaning_valves]
    simp [h1]

/-- C8 amended: the cleaning sub-sequence during the first
valve_cleaning_time seconds of filling is selected by the
pre-incremented cleaning counter mod 4 in the order valve-1-on (0),
valve-1-off (1), valve-2-on (2), valve-2-off (3); since the counter is
set to 1 on entering filling, the first cleaning tick pre-increments it
to 2 and the observed order is valve-2-on, valve-2-off, valve-1-on,
valve-1-off - not valve-1 first as claimed.  After the window ends both
configured valves are commanded on and the counter is zeroed; with the
counter at 0 the tick emits no valve command. -/
theorem valve_cleaning_sequence (cfg : Config) (s : St) (now : ℚ) (env : Env) (mft : ℚ)
    (hph : s.phase = Phase.filling) (hdue : s.timer_loop ≤ now)
    (hm : cfg.max_flooding_time = some mft) (ht : ¬ mft < now - s.fill_start_timestamp)
    (hp : env.pumpState = PumpRead.on) (hf : env.floodRaw = Raw.off) :
    (1 ≤ s.cleaning_valves → now - s.fill_start_timestamp < cfg.valve_cleaning_time →
        valveEffs (loop cfg s now env).2
          = (if (s.cleaning_valves + 1) % 4 = 0 then
              (if cfg.output_valve1_channel.isSome then [Eff.outputOn Dev.valve1 cfg.output_max_time] else [])
            else if (s.cleaning_valves + 1) % 4 = 1 then
              (if cfg.output_valve1_channel.isSome then [Eff.outputOff Dev.valve1] else [])
            else if (s.cleaning_valves + 1) % 4 = 2 then
              (if cfg.output_valve2_channel.isSome then [Eff.outputOn Dev.valve2 cfg.output_max_time] else [])
            else
              (if cfg.output_valve2_channel.isSome then [Eff.outputOff Dev.valve2] else []))
        ∧ (loop cfg s now env).1.cleaning_valves = s.cleaning_valves + 1)
    ∧ (1 ≤ s.cleaning_valves → ¬ now - s.fill_start_timestamp < cfg.valve_cleaning_time →
        valveEffs (loop cfg s now env).2
          = (if cfg.output_valve1_channel.isSome then [Eff.outputOn Dev.valve1 cfg.output_max_time] else [])
              ++ (if cfg.output_valve2_channel.isSome then [Eff.outputOn Dev.valve2 cfg.output_max_time] else [])
        ∧ (loop cfg s now env).1.cleaning_valves = 0)
    ∧ (¬ 1 ≤ s.cleaning_valves →
        valveEffs (loop cfg s now env).2 = []
        ∧ (loop cfg s now env).1.cleaning_valves = s.cleaning_valves) := by
  rw [loop_due_filling cfg s now env hph hdue]
  exact on_filling_cleaning_cases cfg
    { s with timer_loop := advanceTimer s.timer_loop cfg.period now } now env mft hm ht hp hf

/-- Witness for the amended C8 theorem: a filling state whose cleaning
counter was just set to 1 on entry emits valve-2-on on its first
cleaning tick and advances the counter to 2. -/
theorem valve_cleaning_sequence_witness :
    valveEffs (loop sampleCfg
        { initSt 0 0 0 with phase := Phase.filling, cleaning_valves := 1 } 0 sampleEnv).2
      = [Eff.outputOn Dev.valve2 120]
    ∧ (loop sampleCfg
        { initSt 0 0 0 with phase := Phase.filling, cleaning_valves := 1 } 0 sampleEnv).1.cleaning_valves
      = 2 := by
  have h := (valve_cleaning_sequence sampleCfg
      { initSt 0 0 0 with phase := Phase.filling, cleaning_valves := 1 } 0 sampleEnv 110
      (by decide) (by decide) (by decide) (by norm_num [initSt]) (by decide) (by decide)).1
    (by decide) (by norm_num [initSt, sampleCfg])
  refine ⟨?_, ?_⟩
  · rw [h.1]
    decide
  · rw [h.2]

/-- C4: for every configuration in which the pump actuator reference is
missing, any dispatched starting tick transitions straight to error (so
well within the 4-tick retry budget), and a controller run from
activation never reaches the filling phase on any tick sequence. -/
theorem missing_pump_reaches_error_never_filling (cfg : Config)
    (hp : cfg.output_waterpump_channel = none) :
    (∀ (s : St) (now : ℚ) (env : Env), s.phase = Phase.starting → s.timer_loop ≤ now →
        (loop cfg s now env).1.phase = Phase.error)
    ∧ (∀ (t0 fc ec : ℚ) (tr : List (ℚ × Env)),
        (runSt cfg (initSt t0 fc ec) tr).phase ≠ Phase.filling) := by
  have herr : ∀ (s : St) (now : ℚ) (env : Env), s.phase = Phase.starting → s.timer_loop ≤ now →
      (loop cfg s now env).1.phase = Phase.error := by
    intro s now env hph hdue
    rw [loop_due_starting cfg s now env hph hdue]
    rw [os_eq_error cfg _ now env (Or.inr (Or.inr (Or.inr (Or.inl hp))))]
    exact fireError_phase _
  refine ⟨herr, ?_⟩
  have step : ∀ (s : St) (now : ℚ) (env : Env),
      (s.phase = Phase.idle ∨ s.phase = Phase.starting ∨ s.phase = Phase.error) →
      ((loop cfg s now env).1.phase = Phase.idle
        ∨ (loop cfg s now env).1.phase = Phase.starting
        ∨ (loop cfg s now env).1.phase = Phase.error) := by
    intro s now env h
    by_cases hdue : now < s.timer_loop
    · rw [loop_not_due cfg s now env hdue]
      exact h
    · have hdue' := not_lt.1 hdue
      rcases h with h | h | h
      · rw [loop_due_idle cfg s now env h hdue']
        simp
      · exact Or.inr (Or.inr (herr s now env h hdue'))
      · rw [loop_due_error cfg s now env h hdue']
        simp [h]
  have run : ∀ (tr : List (ℚ × Env)) (s : St),
      (s.phase = Phase.idle ∨ s.phase = Phase.starting ∨ s.phase = Phase.error) →
      ((runSt cfg s tr).phase = Phase.idle
        ∨ (runSt cfg s tr).phase = Phase.starting
        ∨ (runSt cfg s tr).phase = Phase.error) := by
    intro tr
    induction tr with
    | nil => intro s h; exact h
    | cons p tr ih =>
        intro s h
        obtain ⟨now, env⟩ := p
        exact ih _ (step s now env h)
  intro t0 fc ec tr
  rcases run tr (initSt t0 fc ec) (Or.inl rfl) with h | h | h <;> simp [h]

/-- Witness for the C4 theorem: with the pump channel removed from the
sample configuration, the first dispatched starting tick lands in
error, and a one-tick run from activation is not in filling. -/
theorem missing_pump_reaches_error_never_filling_witness :
    (loop { sampleCfg with output_waterpump_channel := none }
        sampleStarting 0 sampleEnv).1.phase = Phase.error
    ∧ (runSt { sampleCfg with output_waterpump_channel := none }
        (initSt 0 0 0) [((0 : ℚ), sampleEnv)]).phase ≠ Phase.filling :=
  ⟨(missing_pump_reaches_error_never_filling
      { sampleCfg with output_waterpump_channel := none } (by decide)).1
      sampleStarting 0 sampleEnv (by decide) (by decide),
   (missing_pump_reaches_error_never_filling
      { sampleCfg with output_waterpump_channel := none } (by decide)).2
      0 0 0 [((0 : ℚ), sampleEnv)]⟩

/-- C5: on every tick, the number of statistics batches written equals
the number of terminal-transition firings performed during that tick
(each entry into error, observable as the error-counter increase, plus
the single entry into drained), so statistics are written exactly once
per terminal transition and never mid-cycle; and every statistics write
is followed, later in the same tick's effect list, by the controller
deactivation request. -/
theorem stats_once_per_terminal_entry (cfg : Config) (s : St) (now : ℚ) (env : Env) :
    (countWrites (loop cfg s now env).2 : ℚ)
      = ((loop cfg s now env).1.error_count - s.error_count)
        + (if (loop cfg s now env).1.phase = Phase.drained ∧ ¬ s.phase = Phase.drained
            then 1 else 0)
    ∧ writesBeforeDeact (loop cfg s now env).2 = true := by
  by_cases hdue : now < s.timer_loop
  · rw [loop_not_due cfg s now env hdue]
    exact ⟨by simp [countWrites], rfl⟩
  · have hdue' := not_lt.1 hdue
    rcases phase_cases s.phase with hph | hph | hph | hph | hph | hph | hph | hph
    · rw [loop_due_idle cfg s now env hph hdue']
      exact ⟨by simp [countWrites], rfl⟩
    · rw [loop_due_starting cfg s now env hph hdue']
      have he := on_starting_ec cfg
        { s with timer_loop := advanceTimer s.timer_loop cfg.period now } now env
      have hnd : ¬ ((on_starting cfg
          { s with timer_loop := advanceTimer s.timer_loop cfg.period now } now env).1.phase
            = Phase.drained ∧ ¬ s.phase = Phase.drained) := fun hc =>
        on_starting_not_drained cfg _ now env (by simp [hph]) hc.1
      refine ⟨?_, on_starting_wbd cfg _ now env⟩
      rw [he, if_neg hnd]
      simp
    · rw [loop_due_filling cfg s now env hph hdue']
      have he := on_filling_ec cfg
        { s with timer_loop := advanceTimer s.timer_loop cfg.period now } now env
      have hnd : ¬ ((on_filling cfg
          { s with timer_loop := advanceTimer s.timer_loop cfg.period now } now env).1.phase
            = Phase.drained ∧ ¬ s.phase = Phase.drained) := fun hc =>
        on_filling_not_drained cfg _ now env (by simp [hph]) hc.1
      refine ⟨?_, on_filling_wbd cfg _ now env⟩
      rw [he, if_neg hnd]
      simp
    · rw [loop_due_nodispatch cfg s now env (Or.inl hph) hdue']
      exact ⟨by simp [countWrites, hph], rfl⟩
    · rw [loop_due_draining cfg s now env hph hdue']
      have hst := od_stats cfg
        { s with timer_loop := advanceTimer s.timer_loop cfg.period now } now env (by simp [hph])
      refine ⟨?_, hst.2.1⟩
      rw [hst.1]
      have hnd : ¬ s.phase = Phase.drained := by simp [hph]
      simp [hnd]
    · rw [loop_due_nodispatch cfg s now env (Or.inr (Or.inl hph)) hdue']
      exact ⟨by simp [countWrites, hph], rfl⟩
    · rw [loop_due_error cfg s now env hph hdue']
      exact ⟨by simp [countWrites, isWriteStats, hph], rfl⟩
    · rw [loop_due_nodispatch cfg s now env (Or.inr (Or.inr hph)) hdue']
      exact ⟨by simp [countWrites, hph], rfl⟩

/-- The retry-counter invariant is preserved by every tick: the counter
never exceeds 4, and while the phase is still idle or starting it never
exceeds 3 between ticks. -/
theorem loop_triesInv (cfg : Config) (s : St) (now : ℚ) (env : Env)
    (h : triesInv s) : triesInv (loop cfg s now env).1 := by
  by_cases hdue : now < s.timer_loop
  · rw [loop_not_due cfg s now env hdue]
    exact h
  · have hdue' := not_lt.1 hdue
    rcases phase_cases s.phase with hph | hph | hph | hph | hph | hph | hph | hph
    · rw [loop_due_idle cfg s now env hph hdue']
      refine ⟨fun n htr => h.1 n (by simpa using htr), fun _ n htr => ?_⟩
      exact h.2 (Or.inl hph) n (by simpa using htr)
    · rw [loop_due_starting cfg s now env hph hdue']
      have htr := on_starting_tries cfg
        { s with timer_loop := advanceTimer s.timer_loop cfg.period now } now env
      have hb3 : next_tries s ≤ 4 := by
        unfold next_tries
        cases hst : s.starting_tries with
        | none => exact Nat.zero_le 4
        | some m => exact Nat.succ_le_succ (h.2 (Or.inr hph) m hst)
      constructor
      · intro n hn
        rw [htr] at hn
        cases hn
        exact hb3
      · intro hp' n hn
        rw [htr] at hn
        cases hn
        by_contra hgt
        rw [not_le] at hgt
        have herr := on_starting_too_many cfg
          { s with timer_loop := advanceTimer s.timer_loop cfg.period now } now env hgt
        rcases hp' with hp' | hp' <;> rw [herr] at hp' <;> exact Phase.noConfusion hp'
    · rw [loop_due_filling cfg s now env hph hdue']
      have htr := on_filling_tries cfg
        { s with timer_loop := advanceTimer s.timer_loop cfg.period now } now env
      refine ⟨fun n hn => h.1 n (by rw [htr] at hn; simpa using hn), fun hp' n hn => ?_⟩
      exfalso
      rcases on_filling_phase_shape cfg
          { s with timer_loop := advanceTimer s.timer_loop cfg.period now } now env with
        hs | hs | hs <;> rcases hp' with hp' | hp' <;> rw [hs] at hp' <;>
        simp_all
    · rw [loop_due_nodispatch cfg s now env (Or.inl hph) hdue']
      refine ⟨fun n hn => h.1 n (by simpa using hn), fun hp' n hn => ?_⟩
      exfalso
      rcases hp' with hp' | hp' <;> simp_all
    · rw [loop_due_draining cfg s now env hph hdue']
      have htr := od_tries cfg
        { s with timer_loop := advanceTimer s.timer_loop cfg.period now } now env
      refine ⟨fun n hn => h.1 n (by rw [htr] at hn; simpa using hn), fun hp' n hn => ?_⟩
      exfalso
      rcases od_phase_shape cfg
          { s with timer_loop := advanceTimer s.timer_loop cfg.period now } now env with
        hs | hs | hs <;> rcases hp' with hp' | hp' <;> rw [hs] at hp' <;>
        simp_all
    · rw [loop_due_nodispatch cfg s now env (Or.inr (Or.inl hph)) hdue']
      refine ⟨fun n hn => h.1 n (by simpa using hn), fun hp' n hn => ?_⟩
      exfalso
      rcases hp' with hp' | hp' <;> simp_all
    · rw [loop_due_error cfg s now env hph hdue']
      refine ⟨fun n hn => h.1 n (by simpa using hn), fun hp' n hn => ?_⟩
      exfalso
      rcases hp' with hp' | hp' <;> simp_all
    · rw [loop_due_nodispatch cfg s now env (Or.inr (Or.inr hph)) hdue']
      refine ⟨fun n hn => h.1 n (by simpa using hn), fun hp' n hn => ?_⟩
      exfalso
      rcases hp' with hp' | hp' <;> simp_all

/-- C7 amended: the retry counter does exceed 3: on the tick after the
third retry it is written to 4 while the controller transitions to
error, so the tight invariant is a bound of 4, with the bound 3 holding
only while the phase is still idle or starting.  The counter starts
unset, every tick preserves the invariant, along any run from
activation the counter never exceeds 4, and a dispatched starting tick
that begins with the counter at 3 lands in error. -/
theorem starting_tries_bounded_by_four (cfg : Config) :
    (∀ (t0 fc ec : ℚ), triesInv (initSt t0 fc ec))
    ∧ (∀ (s : St) (now : ℚ) (env : Env), triesInv s → triesInv (loop cfg s now env).1)
    ∧ (∀ (t0 fc ec : ℚ) (tr : List (ℚ × Env)) (n : ℕ),
        (runSt cfg (initSt t0 fc ec) tr).starting_tries = some n → n ≤ 4)
    ∧ (∀ (s : St) (now : ℚ) (env : Env), s.phase = Phase.starting → s.timer_loop ≤ now →
        s.starting_tries = some 3 → (loop cfg s now env).1.phase = Phase.error) := by
  have hinit : ∀ (t0 fc ec : ℚ), triesInv (initSt t0 fc ec) := by
    intro t0 fc ec
    exact ⟨fun n hn => by simp [initSt] at hn, fun _ n hn => by simp [initSt] at hn⟩
  refine ⟨hinit, fun s now env h => loop_triesInv cfg s now env h, ?_, ?_⟩
  · have run : ∀ (tr : List (ℚ × Env)) (s : St), triesInv s → triesInv (runSt cfg s tr) := by
      intro tr
      induction tr with
      | nil => exact fun s h => h
      | cons p tr ih =>
          intro s h
          obtain ⟨now, env⟩ := p
          exact ih _ (loop_triesInv cfg s now env h)
    intro t0 fc ec tr n hn
    exact (run tr (initSt t0 fc ec) (hinit t0 fc ec)).1 n hn
  · intro s now env hph hdue htr
    rw [loop_due_starting cfg s now env hph hdue]
    apply on_starting_too_many
    show 3 < next_tries s
    unfold next_tries
    rw [htr]
    exact Nat.lt_succ_self 3

/-- Witness for the amended C7 theorem: the fresh state satisfies the
invariant, one sample tick preserves it, a one-tick run keeps the
counter at most 4, and a starting tick with the counter at 3 lands in
error. -/
theorem starting_tries_bounded_by_four_witness :
    triesInv (initSt 0 0 0)
    ∧ triesInv (loop sampleCfg sampleStarting 0 sampleEnv).1
    ∧ ((runSt sampleCfg (initSt 0 0 0) [((0 : ℚ), sampleEnv)]).starting_tries = some 0 → 0 ≤ 4)
    ∧ (loop sampleCfg { sampleStarting with starting_tries := some 3 } 0 sampleEnv).1.phase
        = Phase.error :=
  ⟨(starting_tries_bounded_by_four sampleCfg).1 0 0 0,
   (starting_tries_bounded_by_four sampleCfg).2.1 sampleStarting 0 sampleEnv
     ⟨fun n hn => by simp [sampleStarting, initSt] at hn,
      fun _ n hn => by simp [sampleStarting, initSt] at hn⟩,
   (starting_tries_bounded_by_four sampleCfg).2.2.1 0 0 0 [((0 : ℚ), sampleEnv)] 0,
   (starting_tries_bounded_by_four sampleCfg).2.2.2
     { sampleStarting with starting_tries := some 3 } 0 sampleEnv
     (by decide) (by decide) (by decide)⟩

end EbbFlood
